import Mathlib


/-!
Shallow embedding of the connection/session core of the lan-bridge repository:
the token authority (src/lib/auth.js), the user registry (lib/user-manager.js),
the chat archive (src/lib/chat-store.js) and the connection router (src/server.js).

JavaScript `Map` objects are embedded as insertion-ordered association lists,
numbers used with bitwise operators follow 32-bit signed wrap-around, and the
AES-256-GCM authenticated encryption of auth.js is modelled symbolically: a
ciphertext is represented by the key, iv and plaintext that produced it, and
decryption under a key succeeds exactly when that key matches (a tampered or
foreign ciphertext fails the GCM tag check).  Calls to `crypto.randomBytes`,
`Math.random` and `Date.now` are modelled by explicit entropy parameters.
-/

/-- JavaScript `a || b` for strings: the empty string is falsy. -/
def jsOr (a b : String) : String := if a = "" then b else a

/-- JavaScript truthiness of a nullable string (`null`, `undefined` and `""` are falsy). -/
def strTruthy : Option String → Bool
  | none => false
  | some s => s != ""

/-- Lookup in a JavaScript `Map` embedded as an association list (`Map.get`). -/
def mapGet {α β : Type} [BEq α] (m : List (α × β)) (k : α) : Option β :=
  (m.find? (fun p => p.1 == k)).map (·.2)

/-- Insertion into a JavaScript `Map` embedded as an association list (`Map.set`):
an existing key keeps its position, a new key is appended. -/
def mapSet {α β : Type} [BEq α] (m : List (α × β)) (k : α) (v : β) : List (α × β) :=
  match m with
  | [] => [(k, v)]
  | (k0, v0) :: rest => if k0 == k then (k, v) :: rest else (k0, v0) :: mapSet rest k v

/-- Removal from a JavaScript `Map` embedded as an association list (`Map.delete`). -/
def mapDelete {α β : Type} [BEq α] (m : List (α × β)) (k : α) : List (α × β) :=
  match m with
  | [] => []
  | (k0, v0) :: rest => if k0 == k then rest else (k0, v0) :: mapDelete rest k

/-! ## Token authority (src/lib/auth.js) -/

/-- Maximum accepted envelope age: 24 hours in milliseconds (auth.js line 92). -/
def maxAgeMs : Int := 24 * 60 * 60 * 1000

/-- Symbolic model of one AES-256-GCM ciphertext produced by `encryptToken`
(auth.js lines 34-55): the key and iv it was encrypted under together with the
embedded plaintext fields `{token, timestamp}`. -/
structure Envelope where
  key : Nat
  iv : Nat
  token : String
  timestamp : Int
  deriving DecidableEq, Repr

/-- A candidate credential string handed to `validateToken`: either an opaque
string that is not the hex encoding of any well-formed ciphertext, or the hex
encoding of a ciphertext. -/
inductive Candidate where
  | raw (s : String)
  | env (e : Envelope)
  deriving DecidableEq, Repr

/-- Module state of auth.js: `SECRET_KEY` and `SESSION_TOKEN` (lines 9-10), both
`null` before `init`.  The field `serverSecret` is Modelled from the spec:
`validateServerToken` and `getServerToken` are called from src/server.js
(lines 487, 517, 1246) but are absent from src/lib/auth.js (module.exports,
lines 171-179); per spec section 4.1 a second, independently generated secret is
reserved for the privileged console role. -/
structure AuthState where
  secretKey : Option Nat
  sessionToken : Option String
  serverSecret : Option String
  deriving DecidableEq, Repr

/-- Source `init()` (auth.js lines 15-21): generates a fresh secret key and session
token; the entropy parameters stand for `crypto.randomBytes`.  The console
secret entropy is Modelled from the spec (section 4.1: "a second, independently
generated secret"). -/
def authInit (keyEntropy : Nat) (tokenEntropy serverEntropy : String) : AuthState :=
  { secretKey := some keyEntropy
    sessionToken := some tokenEntropy
    serverSecret := some serverEntropy }

/-- Source `encryptToken()` (auth.js lines 34-55): encrypts `{token, timestamp: now}`
under the secret key with a fresh iv; throws (here: `none`) when uninitialised. -/
def encryptToken (st : AuthState) (now : Int) (ivEntropy : Nat) : Option Envelope :=
  match st.secretKey, st.sessionToken with
  | some key, some tok => some { key := key, iv := ivEntropy, token := tok, timestamp := now }
  | _, _ => none

/-- Source `validateToken(encryptedToken)` (auth.js lines 62-103): false when
uninitialised or the candidate is missing; otherwise attempt decryption (which
fails for raw strings and for ciphertexts under a different key), then compare
the embedded token with the live session token and check the 24h age bound. -/
def validateToken (st : AuthState) (candidate : Option Candidate) (now : Int) : Bool :=
  match st.secretKey, st.sessionToken with
  | some key, some tok =>
    match candidate with
    | none => false
    | some (.raw _) => false
    | some (.env e) =>
      if e.key != key then false
      else if e.token != tok then false
      else if now - e.timestamp > maxAgeMs then false
      else true
  | _, _ => false

/-- JavaScript truthiness of a nullable candidate string. -/
def candTruthy : Option Candidate → Bool
  | none => false
  | some (.raw s) => s != ""
  | some (.env _) => true

/-- Source `validateRequest(req)` (auth.js lines 125-141): token from the URL query if
present, else from the cookie, else reject. -/
def validateRequest (st : AuthState) (queryToken cookieToken : Option Candidate)
    (now : Int) : Bool :=
  if candTruthy queryToken then validateToken st queryToken now
  else if candTruthy cookieToken then validateToken st cookieToken now
  else false

/-- Modelled from the spec: `validateServerToken(candidate)` is called by
src/server.js (lines 487 and 1246) but absent from src/lib/auth.js
(module.exports, lines 171-179).  Spec section 4.1: a boolean check of the
candidate against the second, console-role secret; `getServerToken` hands the
raw console secret to the startup URL, so the check is direct comparison.
The loopback requirement lives in the caller. -/
def validateServerToken (st : AuthState) (candidate : Option String) : Bool :=
  match st.serverSecret, candidate with
  | some secret, some c => c == secret
  | _, _ => false

/-- Modelled from the spec: `getServerToken()` returns the live console secret
(used by src/server.js lines 517 and 1206). -/
def getServerToken (st : AuthState) : Option String := st.serverSecret

/-- The validation predicate exactly as claim C1 states it: direct equality
with the live session token, or a well-formed envelope that decrypts under the
process secret, embeds the live session token, and is at most 24h old.
This is a spec-side definition, written from the claim for comparison with
`validateToken`. -/
def claimValidateToken (st : AuthState) (candidate : Option Candidate) (now : Int) : Bool :=
  let direct : Bool :=
    match candidate, st.sessionToken with
    | some (.raw s), some tok => s == tok
    | _, _ => false
  let viaEnvelope : Bool :=
    match candidate, st.secretKey, st.sessionToken with
    | some (.env e), some key, some tok =>
      e.key == key && e.token == tok && decide (now - e.timestamp ≤ maxAgeMs)
    | _, _, _ => false
  direct || viaEnvelope

/-- The envelope-only validation predicate (claim C1 as amended: the direct
equality disjunct is dropped; a raw candidate, including the live session token
itself, is always rejected). -/
def claimValidateTokenAmended (st : AuthState) (candidate : Option Candidate)
    (now : Int) : Bool :=
  match candidate, st.secretKey, st.sessionToken with
  | some (.env e), some key, some tok =>
    e.key == key && e.token == tok && decide (now - e.timestamp ≤ maxAgeMs)
  | _, _, _ => false

/-! ## User registry (lib/user-manager.js) -/

/-- The adjective pool (user-manager.js lines 14-18). -/
def adjectives : List String :=
  ["开心的", "机灵的", "勤奋的", "可爱的", "聪明的",
   "活泼的", "调皮的", "温柔的", "勇敢的", "安静的",
   "快乐的", "阳光的", "神秘的", "酷酷的", "萌萌的"]

/-- The noun pool (user-manager.js lines 20-24). -/
def nouns : List String :=
  ["小猫", "小狗", "熊猫", "兔子", "松鼠",
   "狐狸", "考拉", "老虎", "狮子", "企鹅",
   "海豚", "猴子", "小鹿", "小熊", "小象"]

/-- The avatar emoji pool (user-manager.js lines 27-32). -/
def avatars : List String :=
  ["🐱", "🐶", "🐼", "🐰", "🦊",
   "🐨", "🐯", "🦁", "🐧", "🐬",
   "🐵", "🦌", "🐻", "🐘", "🦄",
   "🐸", "🐙", "🦋", "🐝", "🐢"]

/-- JavaScript 32-bit signed coercion, the effect of `hash & hash` and of the
`<<` operator on intermediate results. -/
def toInt32 (n : Int) : Int :=
  let m := n % 4294967296
  if m ≥ 2147483648 then m - 4294967296 else m

/-- One step of the deviceId hash loop (user-manager.js lines 133-138):
`hash = ((hash << 5) - hash) + char; hash = hash & hash`. -/
def hashStep (h : Int) (c : Nat) : Int :=
  toInt32 (toInt32 (h * 32) - h + c)

/-- The deviceId hash (lines 133-139): fold of `hashStep` over the UTF-16 code
units of the string, then `Math.abs`.  Code units of basic-multilingual-plane
characters — the only ones the callers produce — equal their code points. -/
def hashDeviceId (s : String) : Nat :=
  (s.data.foldl (fun h ch => hashStep h ch.toNat) 0).natAbs

/-- Entropy consumed by one registry call: `Date.now()` and `Math.random()` draws. -/
structure Entropy where
  now : Int
  randAdj : Nat
  randNoun : Nat
  randAvatar : Nat
  randId : String
  deriving DecidableEq, Repr

/-- Source `generateIdentity()` (lines 108-117): random adjective, noun and avatar;
each `Math.floor(Math.random() * len)` draw is an entropy index modulo the
list length. -/
def generateIdentity (e : Entropy) : String × String :=
  let adjective := adjectives.getD (e.randAdj % adjectives.length) ""
  let noun := nouns.getD (e.randNoun % nouns.length) ""
  let avatar := avatars.getD (e.randAvatar % avatars.length) ""
  (adjective ++ noun, avatar)

/-- Source `generateUserId()` (lines 122-124). -/
def generateUserId (e : Entropy) : String :=
  "user_" ++ (toString e.now ++ "_" ++ e.randId)

/-- The deterministic branch of `generateIdentityFromDeviceId` (lines 132-148):
index the three pools by disjoint bit-shifted slices of the hash. -/
def deviceIdentity (deviceId : String) : String × String :=
  let hash := hashDeviceId deviceId
  (adjectives.getD (hash % adjectives.length) ""
     ++ nouns.getD ((hash / 16) % nouns.length) "",
   avatars.getD ((hash / 256) % avatars.length) "")

/-- Source `generateIdentityFromDeviceId(deviceId)` (lines 129-149): falsy deviceId
falls back to a random identity. -/
def generateIdentityFromDeviceId (deviceId : String) (e : Entropy) : String × String :=
  if deviceId = "" then generateIdentity e else deviceIdentity deviceId

/-- A User record (user-manager.js lines 168-178), with the WebSocket back
reference `ws` replaced by the numeric connection id `wsId` and ISO timestamp
strings replaced by their epoch-millisecond values. -/
structure JsUser where
  id : String
  name : String
  avatar : String
  token : Option Candidate
  deviceId : Option String
  wsId : Nat
  connectedAt : Int
  lastActiveAt : Int
  isOnline : Bool
  deriving DecidableEq, Repr

/-- An activity record (user-manager.js lines 287-297); the source field
`type` is called `kind` here. -/
structure Activity where
  id : String
  userId : String
  userName : String
  userAvatar : String
  kind : String
  content : String
  metadata : List (String × String)
  timestamp : Int
  deriving DecidableEq, Repr

/-- The UserManager state (lines 35-42): `users : Map userId -> User`,
`connections : Map ws -> userId`, the activity log and `maxConnections`. -/
structure UserManagerState where
  users : List (String × JsUser)
  connections : List (Nat × String)
  activities : List Activity
  maxConnections : Nat
  deriving DecidableEq, Repr

/-- The constructor plus `loadSettings` (lines 35-56): empty maps, and
`maxConnections` from the settings file when present and truthy, else 3. -/
def umInit (loadedMax : Option Nat) : UserManagerState :=
  { users := []
    connections := []
    activities := []
    maxConnections :=
      match loadedMax with
      | some n => if n = 0 then 3 else n
      | none => 3 }

/-- Source `getOnlineCount()` (lines 101-103). -/
def getOnlineCount (st : UserManagerState) : Nat :=
  (st.users.filter (fun p => p.2.isOnline)).length

/-- Source `canAcceptConnection()` (lines 94-96). -/
def canAcceptConnection (st : UserManagerState) : Bool :=
  getOnlineCount st < st.maxConnections

/-- Source `setMaxConnections(max)` (lines 78-82): clamp into [1, 10] and persist. -/
def setMaxConnections (st : UserManagerState) (n : Int) : UserManagerState :=
  { st with maxConnections := (max 1 (min 10 n)).toNat }

/-- Source `addActivity(userId, type, content, metadata)` (lines 283-307): no-op for
an unknown user, else append a record and keep only the last 500. -/
def addActivity (st : UserManagerState) (userId kind content : String)
    (metadata : List (String × String)) (e : Entropy) : UserManagerState :=
  match mapGet st.users userId with
  | none => st
  | some user =>
    let activity : Activity :=
      { id := "act_" ++ (toString e.now ++ "_" ++ e.randId)
        userId := userId
        userName := user.name
        userAvatar := user.avatar
        kind := kind
        content := content
        metadata := metadata
        timestamp := e.now }
    let acts := st.activities ++ [activity]
    { st with
      activities := if acts.length > 500 then acts.drop (acts.length - 500) else acts }

/-- Result of `addUser`: either `{error, code}` or `{user}` (lines 154-187). -/
inductive AddUserResult where
  | failure (message code : String)
  | ok (user : JsUser)
  deriving DecidableEq, Repr

/-- Source `addUser(ws, token, deviceId)` (lines 154-187).  A falsy deviceId (null or
empty) yields a random user id and identity; a truthy one yields id
`device_<deviceId>` reusing the name/avatar/connectedAt of an existing record
under that id.  Refusal at capacity happens first and leaves the state
untouched. -/
def addUser (st : UserManagerState) (ws : Nat) (token : Option Candidate)
    (deviceId : Option String) (e : Entropy) : AddUserResult × UserManagerState :=
  if canAcceptConnection st = false then
    (.failure "连接数已达上限" "MAX_CONNECTIONS", st)
  else
    let userId :=
      if strTruthy deviceId then "device_" ++ deviceId.getD "" else generateUserId e
    let existingUser := if strTruthy deviceId then mapGet st.users userId else none
    let identity :=
      if strTruthy deviceId then generateIdentityFromDeviceId (deviceId.getD "") e
      else generateIdentity e
    let user : JsUser :=
      { id := userId
        name := jsOr ((existingUser.map (·.name)).getD "") identity.1
        avatar := jsOr ((existingUser.map (·.avatar)).getD "") identity.2
        token := token
        deviceId := deviceId
        wsId := ws
        connectedAt := (existingUser.map (·.connectedAt)).getD e.now
        lastActiveAt := e.now
        isOnline := true }
    let st1 := { st with
      users := mapSet st.users userId user
      connections := mapSet st.connections ws userId }
    (.ok user, addActivity st1 userId "connect" (user.name ++ " 已连接") [] e)

/-- Source `removeUser(ws)` (lines 192-207): mark the bound user offline, stamp
`lastActiveAt`, record the activity, drop the connection entry; the user record
itself is never deleted. -/
def removeUser (st : UserManagerState) (ws : Nat) (e : Entropy) :
    Option JsUser × UserManagerState :=
  match mapGet st.connections ws with
  | none => (none, st)
  | some userId =>
    match mapGet st.users userId with
    | none => (none, { st with connections := mapDelete st.connections ws })
    | some user =>
      let user1 := { user with isOnline := false, lastActiveAt := e.now }
      let st1 := { st with users := mapSet st.users userId user1 }
      let st2 := addActivity st1 userId "disconnect" (user.name ++ " 已断开") [] e
      (some user1, { st2 with connections := mapDelete st2.connections ws })

/-- Source `updateActivity(ws)` (lines 234-242): refresh `lastActiveAt`. -/
def updateActivity (st : UserManagerState) (ws : Nat) (now : Int) : UserManagerState :=
  match mapGet st.connections ws with
  | none => st
  | some userId =>
    match mapGet st.users userId with
    | none => st
    | some user =>
      { st with users := mapSet st.users userId { user with lastActiveAt := now } }

/-- Source `getUserById(userId)` (lines 219-221). -/
def getUserById (st : UserManagerState) (userId : String) : Option JsUser :=
  mapGet st.users userId

/-- Source `getUserByWs(ws)` (lines 226-229). -/
def getUserByWs (st : UserManagerState) (ws : Nat) : Option JsUser :=
  match mapGet st.connections ws with
  | none => none
  | some userId => mapGet st.users userId

/-- Source `getOnlineUsers()` (lines 247-249). -/
def getOnlineUsers (st : UserManagerState) : List JsUser :=
  (st.users.map (·.2)).filter (·.isOnline)

/-- Removal of the first connection entry bound to a user id, the loop of
`kickUser` (lines 266-272). -/
def deleteFirstConn (conns : List (Nat × String)) (userId : String) : List (Nat × String) :=
  match conns with
  | [] => []
  | (ws, uid) :: rest =>
    if uid == userId then rest else (ws, uid) :: deleteFirstConn rest userId

/-- Source `kickUser(userId)` (lines 261-278): close and drop the user's live
connection, mark offline, record the activity. -/
def kickUser (st : UserManagerState) (userId : String) (e : Entropy) :
    Option JsUser × UserManagerState :=
  match mapGet st.users userId with
  | none => (none, st)
  | some user =>
    let st1 := { st with connections := deleteFirstConn st.connections userId }
    let user1 := { user with isOnline := false }
    let st2 := { st1 with users := mapSet st1.users userId user1 }
    (some user1, addActivity st2 userId "kick" (user1.name ++ " 被踢出") [] e)

/-- One registry operation, for reachability of registry states. -/
inductive UMOp where
  | add (ws : Nat) (token : Option Candidate) (deviceId : Option String) (e : Entropy)
  | remove (ws : Nat) (e : Entropy)
  | kick (userId : String) (e : Entropy)
  | touch (ws : Nat) (now : Int)
  | setMax (n : Int)

/-- Apply one registry operation, discarding the returned value. -/
def applyOp (st : UserManagerState) : UMOp → UserManagerState
  | .add ws token deviceId e => (addUser st ws token deviceId e).2
  | .remove ws e => (removeUser st ws e).2
  | .kick userId e => (kickUser st userId e).2
  | .touch ws now => updateActivity st ws now
  | .setMax n => setMaxConnections st n

/-- Run a sequence of registry operations. -/
def runOps (st : UserManagerState) (ops : List UMOp) : UserManagerState :=
  ops.foldl applyOp st

/-! ## Chat archive (src/lib/chat-store.js) -/

/-- File payload attached to a chat message (server.js lines 633-637). -/
structure FileRef where
  filename : String
  size : Nat
  category : String
  deriving DecidableEq, Repr

/-- A stored chat message (chat-store.js lines 76-88), with ISO timestamp
strings replaced by epoch milliseconds and the redundant `time` display string
omitted. -/
structure StoredMessage where
  id : String
  role : String
  content : String
  userId : String
  userName : String
  userAvatar : String
  timestamp : Int
  messageType : String
  file : Option FileRef
  deriving DecidableEq, Repr

/-- The message argument of `saveMessage` (chat-store.js line 65): every field
other than role and content may be absent. -/
structure MessageInput where
  role : String
  content : String
  userId : Option String
  userName : Option String
  userAvatar : Option String
  messageType : Option String
  file : Option FileRef
  deriving DecidableEq, Repr

/-- The chats directory: one entry per day file, keyed by the YYYY-MM-DD name. -/
abbrev Archive := List (String × List StoredMessage)

/-- Civil (year, month, day) from days since the Unix epoch — the date part of
`Date.toISOString` used by `getDateString` (chat-store.js lines 27-29). -/
def civilFromDays (z0 : Int) : Int × Int × Int :=
  let z := z0 + 719468
  let era := Int.fdiv z 146097
  let doe := z - era * 146097
  let yoe := Int.fdiv (doe - Int.fdiv doe 1460 + Int.fdiv doe 36524 - Int.fdiv doe 146096) 365
  let y := yoe + era * 400
  let doy := doe - (365 * yoe + Int.fdiv yoe 4 - Int.fdiv yoe 100)
  let mp := Int.fdiv (5 * doy + 2) 153
  let d := doy - Int.fdiv (153 * mp + 2) 5 + 1
  let m := mp + (if mp < 10 then 3 else -9)
  (y + (if m ≤ 2 then 1 else 0), m, d)

/-- Zero padding of a two-digit date component. -/
def pad2 (n : Int) : String :=
  if 0 ≤ n ∧ n < 10 then "0" ++ toString n else toString n

/-- Source `getDateString(date)` (chat-store.js lines 27-29): the YYYY-MM-DD prefix of
the ISO string of the given epoch-millisecond instant. -/
def getDateString (nowMs : Int) : String :=
  let ymd := civilFromDays (Int.fdiv nowMs 86400000)
  toString ymd.1 ++ "-" ++ pad2 ymd.2.1 ++ "-" ++ pad2 ymd.2.2

/-- Source `getMessages(dateStr)` (lines 44-58): the day file's array, `[]` when the
file is missing or unreadable. -/
def getMessages (arch : Archive) (dateStr : String) : List StoredMessage :=
  (mapGet arch dateStr).getD []

/-- Source `saveMessage(message)` (lines 65-101): assign an id, default the user
fields by role, stamp the timestamp and append to the current day partition
(read-modify-write of that day's file). -/
def saveMessage (arch : Archive) (m : MessageInput) (e : Entropy) :
    StoredMessage × Archive :=
  let dateStr := getDateString e.now
  let messages := getMessages arch dateStr
  let newMessage : StoredMessage :=
    { id := toString e.now ++ "_" ++ e.randId
      role := m.role
      content := m.content
      userId := jsOr (m.userId.getD "") (if m.role = "ai" then "ai" else "unknown")
      userName := jsOr (m.userName.getD "") (if m.role = "ai" then "AI" else "未知")
      userAvatar := jsOr (m.userAvatar.getD "") (if m.role = "ai" then "🤖" else "👤")
      timestamp := e.now
      messageType := jsOr (m.messageType.getD "") "text"
      file := m.file }
  (newMessage, mapSet arch dateStr (messages ++ [newMessage]))

/-- Source `getAllDates()` (lines 142-156): day keys in descending order. -/
def getAllDates (arch : Archive) : List String :=
  (arch.map Prod.fst).mergeSort (fun a b => decide (b ≤ a))

/-- The accumulation loop of `getRecentMessages` (lines 114-122): read day
files newest-first, stopping once `limit` messages are gathered. -/
def collectRecent (arch : Archive) (limit : Nat) :
    List String → List StoredMessage → List StoredMessage
  | [], acc => acc
  | d :: rest, acc =>
    let acc1 := acc ++ getMessages arch d
    if limit ≤ acc1.length then acc1 else collectRecent arch limit rest acc1

/-- Source `getRecentMessages(limit)` (lines 108-127): gather, sort by timestamp
descending, truncate to `limit`, return chronologically. -/
def getRecentMessages (arch : Archive) (limit : Nat) : List StoredMessage :=
  let all := collectRecent arch limit (getAllDates arch) []
  ((all.mergeSort (fun a b => decide (b.timestamp ≤ a.timestamp))).take limit).reverse

/-- Source `clearMessages(dateStr)` / `clearTodayMessages()` (lines 163-179): delete
the current day's file. -/
def clearTodayMessages (arch : Archive) (now : Int) : Archive :=
  mapDelete arch (getDateString now)

/-- The filter predicate of `clearUserMessages` (lines 197-200): keep a message
iff its userId differs from the target (the parenthesised disjunction of the
source is implied by the first conjunct). -/
def keepMsg (userId : String) (m : StoredMessage) : Bool :=
  m.userId != userId && (m.role != "ai" || m.userId == "" || m.userId != userId)

/-- One day of `clearUserMessages` (lines 192-221): count removals; on any
removal rewrite the day file, deleting it outright when it becomes empty;
leave the file untouched when nothing was removed. -/
def clearUserDay (userId : String) (msgs : List StoredMessage) :
    Nat × Option (List StoredMessage) :=
  let filteredMessages := msgs.filter (keepMsg userId)
  let removedCount := msgs.length - filteredMessages.length
  if removedCount > 0 then
    if filteredMessages.isEmpty then (removedCount, none)
    else (removedCount, some filteredMessages)
  else (0, some msgs)

/-- Source `clearUserMessages(userId)` (lines 186-224): apply `clearUserDay` to every
day partition and sum the removal counts.  The source iterates the directory
listing; the days are processed independently, so the fold over the directory
entries is the same function. -/
def clearUserMessages (userId : String) (arch : Archive) : Nat × Archive :=
  match arch with
  | [] => (0, [])
  | (d, msgs) :: rest =>
    let day := clearUserDay userId msgs
    let tailResult := clearUserMessages userId rest
    match day.2 with
    | none => (day.1 + tailResult.1, tailResult.2)
    | some ms => (day.1 + tailResult.1, (d, ms) :: tailResult.2)

/-- Two online users bound to connections 1 and 2, capacity 2: a registry
exactly at its limit. -/
def stFull : UserManagerState :=
  { users :=
      [("device_d1",
        { id := "device_d1", name := "nA", avatar := "aA", token := some (Candidate.raw "tA"),
          deviceId := some "d1", wsId := 1, connectedAt := 0, lastActiveAt := 0,
          isOnline := true }),
       ("device_d2",
        { id := "device_d2", name := "nB", avatar := "aB", token := some (Candidate.raw "tB"),
          deviceId := some "d2", wsId := 2, connectedAt := 0, lastActiveAt := 0,
          isOnline := true })]
    connections := [(1, "device_d1"), (2, "device_d2")]
    activities := []
    maxConnections := 2 }

/-- Entropy used by the concrete admission scenarios. -/
def entW : Entropy :=
  { now := 5, randAdj := 0, randNoun := 0, randAvatar := 0, randId := "zzzzzz" }

/-- The registry invariant behind identity stability: every user stored under a
key `device_<d>` with non-empty `d` carries exactly the name and avatar
deterministically derived from `d`. -/
def deviceIdentityInvL (users : List (String × JsUser)) : Prop :=
  ∀ d : String, d ≠ "" → ∀ u : JsUser,
    mapGet users ("device_" ++ d) = some u →
      u.name = (deviceIdentity d).1 ∧ u.avatar = (deviceIdentity d).2

/-- Projection of an admission result to the (userId, name, avatar) triple. -/
def addUserTriple : AddUserResult → String × String × String
  | .ok u => (u.id, u.name, u.avatar)
  | .failure _ _ => ("", "", "")

/-- Entropy of a first concrete connection. -/
def entA : Entropy :=
  { now := 0, randAdj := 0, randNoun := 1, randAvatar := 2, randId := "aaaaaa" }

/-- Entropy of a second concrete connection. -/
def entB : Entropy :=
  { now := 1, randAdj := 3, randNoun := 4, randAvatar := 5, randId := "bbbbbb" }

/-! ## Connection router (src/server.js) -/

/-- Outbound WebSocket message, as far as the routing claims distinguish them. -/
inductive OutMsg where
  | newChatMessage (m : StoredMessage)
  | userList (users : List JsUser)
  | userConnected (u : JsUser)
  | userInfo (u : JsUser)
  | chatHistory (msgs : List StoredMessage)
  | userDisconnected (userId : String)
  | ack (action : String)
  | chatCleared
  | errorEvt (message : String)
  deriving DecidableEq, Repr

/-- Process-wide router state of src/server.js: the registry singleton, the
`clients` set (line 187, insertion-ordered socket ids), the `isServerView`
flags set on console sockets (line 1269), each socket's readyState, the shared
`currentText` buffer (line 48), the chat archive, the auth module state and the
id the next accepted socket object will receive. -/
structure ServerState where
  um : UserManagerState
  clients : List Nat
  serverViews : List Nat
  readyStates : List (Nat × Nat)
  currentText : String
  archive : Archive
  auth : AuthState
  nextWs : Nat
  deriving Repr

/-- A socket's readyState; missing sockets read as CLOSED (3). OPEN is 1. -/
def readyState (st : ServerState) (ws : Nat) : Nat :=
  (mapGet st.readyStates ws).getD 3

/-- Source `broadcast(message, excludeWs)` (server.js lines 190-197): every member of
the clients set whose socket is OPEN, except the excluded one. -/
def broadcast (st : ServerState) (msg : OutMsg) (excludeWs : Option Nat) :
    List (Nat × OutMsg) :=
  (st.clients.filter (fun ws => readyState st ws == 1 && excludeWs != some ws)).map
    (fun ws => (ws, msg))

/-- Source `sendToUser(userId, message)` (lines 200-205): the user's own socket when
it is live. -/
def sendToUser (st : ServerState) (userId : String) (msg : OutMsg) :
    List (Nat × OutMsg) :=
  match getUserById st.um userId with
  | some user => if readyState st user.wsId == 1 then [(user.wsId, msg)] else []
  | none => []

/-- The live console sockets: members of the clients set carrying the
isServerView flag with an OPEN socket (the recipients of `sendToServers`). -/
def liveConsoles (st : ServerState) : List Nat :=
  st.clients.filter (fun ws => readyState st ws == 1 && st.serverViews.contains ws)

/-- Source `sendToServers(message)` (lines 208-215). -/
def sendToServers (st : ServerState) (msg : OutMsg) : List (Nat × OutMsg) :=
  (liveConsoles st).map (fun ws => (ws, msg))

/-- Source `sendChatMessage(chatMsg)` (lines 218-226): targeted delivery — the message
owner (when the record names one) plus every live console. -/
def sendChatMessage (st : ServerState) (chatMsg : StoredMessage) :
    List (Nat × OutMsg) :=
  (if chatMsg.userId ≠ "" then sendToUser st chatMsg.userId (.newChatMessage chatMsg)
   else [])
    ++ sendToServers st (.newChatMessage chatMsg)

/-- The user list payload of `broadcastUserList()` (lines 229-235): the online
users (the `ws` back reference is stripped before serialisation). -/
def broadcastUserListUsers (st : ServerState) : List JsUser :=
  getOnlineUsers st.um

/-- Source `broadcastUserList()` (lines 229-235). -/
def broadcastUserList (st : ServerState) : List (Nat × OutMsg) :=
  broadcast st (.userList (broadcastUserListUsers st)) none

/-- Truthiness of `currentText.trim()` (JavaScript `String.prototype.trim`):
the trimmed string is non-empty exactly when some character of the string is
not whitespace. -/
def trimTruthy (s : String) : Bool := s.data.any (fun c => !c.isWhitespace)

/-- The `submit` case of `handleMessage` (server.js lines 238-245 and 278-314):
look up the sender, refresh its activity; when the shared text is non-blank,
archive it as a user ChatMessage and deliver it to the sender plus all consoles
(`sendChatMessage`), record the submit activity; always clear the shared buffer
and ack the sender.  The clipboard/keystroke shell-outs are external
collaborators with no routed delivery. -/
def handleSubmit (st : ServerState) (ws : Nat) (e : Entropy) :
    ServerState × List (Nat × OutMsg) :=
  let user := getUserByWs st.um ws
  let um1 := updateActivity st.um ws e.now
  let st1 := { st with um := um1 }
  if trimTruthy st.currentText = true then
    let saved := saveMessage st.archive
      { role := "user", content := st.currentText
        userId := user.map (·.id), userName := user.map (·.name)
        userAvatar := user.map (·.avatar), messageType := none, file := none } e
    let deliveries := sendChatMessage st1 saved.1
    let um2 := match user with
      | some u => addActivity um1 u.id "submit" (st.currentText.take 50)
          [("fullContent", st.currentText)] e
      | none => um1
    ({ st1 with um := um2, archive := saved.2, currentText := "" },
      deliveries ++ [(ws, .ack "submit")])
  else
    ({ st1 with currentText := "" }, [(ws, .ack "submit")])

/-- Credentials and identifiers in the WebSocket URL query (lines 1235-1239). -/
structure ConnQuery where
  token : Option Candidate
  serverToken : Option String
  localFlag : Bool
  deviceIdParam : Option String
  deriving Repr

/-- The loopback test (lines 1242-1243 and 568-569):
`['127.0.0.1', '::1', '::ffff:127.0.0.1'].includes(remoteAddress)`. -/
def isLocalhostIP (ip : Option String) : Bool :=
  match ip with
  | some s => s == "127.0.0.1" || s == "::1" || s == "::ffff:127.0.0.1"
  | none => false

/-- The JavaScript `address.replace(/:/g, '_')` of lines 1254-1258: the pattern
is the single character `:`, so it is a per-character substitution. -/
def replaceColons (s : String) : String :=
  String.mk (s.data.map (fun c => if c = ':' then '_' else c))

/-- The deviceId fallback value (lines 1254-1258):
`ip_<address with colons replaced by underscores>_<server|client>`. -/
def deviceIdFallback (ip : Option String) (isServerConn : Bool) : String :=
  "ip_" ++ jsOr ((ip.map replaceColons).getD "") "unknown"
    ++ "_" ++ (if isServerConn then "server" else "client")

/-- The deviceId actually handed to `addUser` (lines 1239 and 1254-1258): the
query parameter when truthy, else the IP-derived fallback. -/
def resolveDeviceId (q : ConnQuery) (ip : Option String) (isServerConn : Bool) : String :=
  if strTruthy q.deviceIdParam then q.deviceIdParam.getD ""
  else deviceIdFallback ip isServerConn

/-- Outcome of one `wss.on('connection')` invocation for a fresh socket. -/
inductive ConnOutcome where
  | rejected (closeCode : Nat)
  | console (ws : Nat)
  | client (ws : Nat) (u : JsUser)
  deriving DecidableEq, Repr

/-- The connection handler (server.js lines 1234-1346).  A fresh socket id is
allocated; classification order: reject with close 4001 when no credential
class matches; a valid server token from loopback registers a console (flag
set, clients set joined, registry untouched); otherwise `addUser` runs — a
MAX_CONNECTIONS refusal closes with 4003 before any registry change, success
joins the clients set. -/
def acceptConnection (st : ServerState) (q : ConnQuery) (ip : Option String)
    (e : Entropy) : ConnOutcome × ServerState :=
  let ws := st.nextWs
  let st0 := { st with nextWs := st.nextWs + 1
                       readyStates := mapSet st.readyStates ws 1 }
  let isLocalhost := isLocalhostIP ip
  let isValidServerConnection := isLocalhost && validateServerToken st.auth q.serverToken
  let isValidClientConnection := validateToken st.auth q.token e.now
  let isLocalToolConnection := isLocalhost && q.localFlag
  let deviceId := resolveDeviceId q ip isValidServerConnection
  if isValidServerConnection = false ∧ isValidClientConnection = false
      ∧ isLocalToolConnection = false then
    (.rejected 4001, { st0 with readyStates := mapSet st0.readyStates ws 3 })
  else if isValidServerConnection = true then
    (.console ws, { st0 with clients := st0.clients ++ [ws]
                             serverViews := st0.serverViews ++ [ws] })
  else
    match addUser st0.um ws q.token (some deviceId) e with
    | (.failure _ _, um2) =>
      (.rejected 4003, { st0 with um := um2
                                  readyStates := mapSet st0.readyStates ws 3 })
    | (.ok u, um2) =>
      (.client ws u, { st0 with um := um2, clients := st0.clients ++ [ws] })

/-- The socket close handler (console branch lines 1279-1282, client branch
lines 1330-1339): the console close only leaves the clients set; the client
close also releases the registry slot via `removeUser`. -/
def handleClose (st : ServerState) (ws : Nat) (e : Entropy) : ServerState :=
  if st.serverViews.contains ws then
    { st with clients := st.clients.filter (fun c => c ≠ ws)
              serverViews := st.serverViews.filter (fun c => c ≠ ws)
              readyStates := mapSet st.readyStates ws 3 }
  else
    { st with um := (removeUser st.um ws e).2
              clients := st.clients.filter (fun c => c ≠ ws)
              readyStates := mapSet st.readyStates ws 3 }

/-- One router-level connection event. -/
inductive SrvEvent where
  | connect (q : ConnQuery) (ip : Option String) (e : Entropy)
  | disconnect (ws : Nat) (e : Entropy)

/-- Apply one connection event. -/
def srvStep (st : ServerState) : SrvEvent → ServerState
  | .connect q ip e => (acceptConnection st q ip e).2
  | .disconnect ws e => handleClose st ws e

/-- The router state right after `startServer` (lines 1381-1402): fresh auth
secrets, empty registry, no sockets. -/
def srvInit (keyE : Nat) (tokE srvE : String) (loadedMax : Option Nat) : ServerState :=
  { um := umInit loadedMax
    clients := []
    serverViews := []
    readyStates := []
    currentText := ""
    archive := []
    auth := authInit keyE tokE srvE
    nextWs := 0 }

/-- Run a sequence of connection events from a state. -/
def runSrv (st : ServerState) (evs : List SrvEvent) : ServerState :=
  evs.foldl srvStep st

/-- Router bookkeeping: every stored socket id is below the allocation counter,
and no console socket is the live socket of any registry user. -/
def routerInv (st : ServerState) : Prop :=
  (∀ ws ∈ st.serverViews, ws < st.nextWs)
    ∧ (∀ p ∈ st.um.users, p.2.wsId < st.nextWs)
    ∧ (∀ ws ∈ st.serverViews, ∀ p ∈ st.um.users, p.2.wsId ≠ ws)

/-- A console connection query carrying the live console secret. -/
def qConsole : ConnQuery :=
  { token := none, serverToken := some "srv", localFlag := false, deviceIdParam := none }

/-- A client connection query carrying a fresh valid envelope for key 7. -/
def qClient : ConnQuery :=
  { token := some (Candidate.env { key := 7, iv := 0, token := "tok", timestamp := 0 })
    serverToken := none, localFlag := false, deviceIdParam := some "dev6" }

/-- A console admission followed by a client admission. -/
def c6evs : List SrvEvent :=
  [SrvEvent.connect qConsole (some "127.0.0.1") entA,
   SrvEvent.connect qClient (some "10.0.0.5") entB]

/-- Number of ChatMessage (`new_chat_message`) deliveries to a socket. -/
def chatDeliveryCount (l : List (Nat × OutMsg)) (ws : Nat) : Nat :=
  (l.filter (fun p => p.1 == ws
      && match p.2 with | OutMsg.newChatMessage _ => true | _ => false)).length

/-- The client user of the concrete fan-out scenario, live on socket 0. -/
def uC5 : JsUser :=
  { id := "device_dA", name := "nA", avatar := "aA", token := some (Candidate.raw "tA")
    deviceId := some "dA", wsId := 0, connectedAt := 0, lastActiveAt := 0
    isOnline := true }

/-- The second ordinary client of the concrete fan-out scenario, socket 1. -/
def uC5b : JsUser :=
  { id := "device_dB", name := "nB", avatar := "aB", token := some (Candidate.raw "tB")
    deviceId := some "dB", wsId := 1, connectedAt := 0, lastActiveAt := 0
    isOnline := true }

/-- A concrete router state: clients on sockets 0 and 1, a console on socket 2,
all sockets OPEN, shared text `"hello"`. -/
def stC5 : ServerState :=
  { um :=
      { users := [("device_dA", uC5), ("device_dB", uC5b)]
        connections := [(0, "device_dA"), (1, "device_dB")]
        activities := []
        maxConnections := 3 }
    clients := [0, 1, 2]
    serverViews := [2]
    readyStates := [(0, 1), (1, 1), (2, 1)]
    currentText := "hello"
    archive := []
    auth := authInit 1 "tok" "srv"
    nextWs := 3 }

/-- Projection of a connection outcome to the admitted user's id. -/
def outcomeUserId : ConnOutcome → String
  | .client _ u => u.id
  | _ => ""

/-- A client query with a valid envelope and fingerprint "dev9". -/
def qDev : ConnQuery :=
  { token := some (Candidate.env { key := 7, iv := 0, token := "tok", timestamp := 0 })
    serverToken := none, localFlag := false, deviceIdParam := some "dev9" }

/-- A client query with a valid envelope and no fingerprint. -/
def qND : ConnQuery :=
  { token := some (Candidate.env { key := 7, iv := 0, token := "tok", timestamp := 0 })
    serverToken := none, localFlag := false, deviceIdParam := none }

/-- A connection query with no valid credential of any class. -/
def qBad : ConnQuery :=
  { token := some (Candidate.raw "garbage"), serverToken := some "wrong"
    localFlag := false, deviceIdParam := none }

/-! ## HTTP token gate (claim C4) -/

/-- An HTTP request as `handleRequestInternal` (server.js lines 458-483)
receives it: the parsed URL, the credentials it may carry, the peer address,
and the outcome of parsing/validating its body where a route needs one
(bodies are read by stream callbacks; their parsed fields are inputs here). -/
structure HttpRequest where
  pathname : String
  method : String
  queryToken : Option Candidate
  serverTokenParam : Option String
  cookieToken : Option Candidate
  remoteAddress : Option String
  bodyParseOk : Bool
  passwordOk : Bool
  loginType : Option String
  bodyUserId : Option String
  bodyFilename : Option String
  bodyContent : Option String
  bodyMaxConnections : Option Int
  uploadFilenames : List String
  fileExists : Bool
  deriving DecidableEq, Repr

/-- A state-changing operation performed by an HTTP handler. -/
inductive SrvEffect where
  | uploadFile (filename : String)
  | deleteFile (filename : String)
  | clearToday
  | clearUser (userId : String)
  | kickUser (userId : String)
  | setMax (n : Int)
  | saveChat (content : String)
  | openFileManager (filename : String)
  deriving DecidableEq, Repr

/-- What `handleRequestInternal` answered: the HTTP status, a tag naming the
handler that produced the response, and the operations performed. -/
structure HttpOutcome where
  status : Nat
  tag : String
  effects : List SrvEffect
  deriving DecidableEq, Repr

/-- Source `handleRequestInternal` (server.js lines 483-979), route by route in
source order.  The `/server`, `/` (client page), `POST /api/login` and
`/api/qrcode` routes answer before the token gate of lines 567-576; every
later route is reached only from loopback or with a token accepted by
`validateRequest`. -/
def handleRequestInternal (st : ServerState) (r : HttpRequest) (now : Int) :
    HttpOutcome :=
  if r.pathname = "/server" ∨ r.pathname = "/server/" then
    if strTruthy r.serverTokenParam = true
        ∧ validateServerToken st.auth r.serverTokenParam = true then
      { status := 200, tag := "serverPage", effects := [] }
    else
      { status := 200, tag := "clientPageServerLogin", effects := [] }
  else if r.pathname = "/" ∨ r.pathname = "/index.html"
      ∨ r.pathname = "/client" ∨ r.pathname = "/client/" then
    { status := 200, tag := "clientPage", effects := [] }
  else if r.pathname = "/api/login" ∧ r.method = "POST" then
    if r.bodyParseOk = false then
      { status := 400, tag := "loginBadRequest", effects := [] }
    else if r.passwordOk then
      { status := 200, tag := "loginIssueToken", effects := [] }
    else
      { status := 401, tag := "loginBadPassword", effects := [] }
  else if r.pathname = "/api/qrcode" then
    { status := 200, tag := "qrcode", effects := [] }
  else if isLocalhostIP r.remoteAddress = false
      ∧ validateRequest st.auth r.queryToken r.cookieToken now = false then
    { status := 401, tag := "unauthorized", effects := [] }
  else if r.pathname = "/api/upload" ∧ r.method = "POST" then
    if (candTruthy r.queryToken && validateToken st.auth r.queryToken now) = false then
      { status := 401, tag := "uploadUnauthorized", effects := [] }
    else
      { status := 200, tag := "upload"
        effects := r.uploadFilenames.map SrvEffect.uploadFile }
  else if r.pathname.startsWith "/files/" then
    if r.fileExists then { status := 200, tag := "download", effects := [] }
    else { status := 404, tag := "downloadMissing", effects := [] }
  else if r.pathname = "/api/files" then
    { status := 200, tag := "fileList", effects := [] }
  else if r.pathname = "/api/files/delete" ∧ r.method = "POST" then
    if r.bodyParseOk then
      { status := 200, tag := "fileDelete"
        effects := [SrvEffect.deleteFile (r.bodyFilename.getD "")] }
    else { status := 400, tag := "fileDeleteBadRequest", effects := [] }
  else if r.pathname = "/api/open-in-finder" ∧ r.method = "POST" then
    if isLocalhostIP r.remoteAddress = false then
      { status := 403, tag := "openInFinderForbidden", effects := [] }
    else if r.fileExists = false then
      { status := 404, tag := "openInFinderMissing", effects := [] }
    else
      { status := 200, tag := "openInFinder"
        effects := [SrvEffect.openFileManager (r.bodyFilename.getD "")] }
  else if r.pathname = "/api/chats" then
    { status := 200, tag := "chatHistory", effects := [] }
  else if r.pathname = "/api/kick-user" ∧ r.method = "POST" then
    if r.bodyParseOk = false then
      { status := 400, tag := "kickBadRequest", effects := [] }
    else
      match getUserById st.um (r.bodyUserId.getD "") with
      | some _ =>
        { status := 200, tag := "kickUser"
          effects := [SrvEffect.kickUser (r.bodyUserId.getD "")] }
      | none => { status := 404, tag := "kickUserMissing", effects := [] }
  else if r.pathname = "/api/clear-chat" ∧ r.method = "POST" then
    { status := 200, tag := "clearChat", effects := [SrvEffect.clearToday] }
  else if r.pathname = "/api/clear-user-chat" ∧ r.method = "POST" then
    if strTruthy r.bodyUserId = false then
      { status := 400, tag := "clearUserChatBadRequest", effects := [] }
    else
      { status := 200, tag := "clearUserChat"
        effects := [SrvEffect.clearUser (r.bodyUserId.getD "")] }
  else if r.pathname = "/api/server-message" ∧ r.method = "POST" then
    if r.bodyParseOk then
      { status := 200, tag := "serverMessage"
        effects := [SrvEffect.saveChat (r.bodyContent.getD "")] }
    else { status := 400, tag := "serverMessageBadRequest", effects := [] }
  else if r.pathname = "/api/server-upload" ∧ r.method = "POST" then
    if r.bodyParseOk then
      { status := 200, tag := "serverUpload"
        effects := r.uploadFilenames.map SrvEffect.uploadFile }
    else { status := 400, tag := "serverUploadBadRequest", effects := [] }
  else if r.pathname = "/api/settings" ∧ r.method = "POST" then
    if r.bodyParseOk then
      { status := 200, tag := "settingsUpdate"
        effects := match r.bodyMaxConnections with
          | some n => if n = 0 then [] else [SrvEffect.setMax n]
          | none => [] }
    else { status := 400, tag := "settingsBadRequest", effects := [] }
  else
    { status := 404, tag := "notFound", effects := [] }

/-- An unauthenticated non-loopback request to /api/qrcode. -/
def qrRequest : HttpRequest :=
  { pathname := "/api/qrcode", method := "GET", queryToken := none
    serverTokenParam := none, cookieToken := none, remoteAddress := some "192.168.1.9"
    bodyParseOk := true, passwordOk := false, loginType := none, bodyUserId := none
    bodyFilename := none, bodyContent := none, bodyMaxConnections := none
    uploadFilenames := [], fileExists := false }

/-- A kick-user request carrying an invalid token from a LAN address. -/
def kickRequest : HttpRequest :=
  { pathname := "/api/kick-user", method := "POST"
    queryToken := some (Candidate.raw "bad"), serverTokenParam := none
    cookieToken := none, remoteAddress := some "192.168.1.9"
    bodyParseOk := true, passwordOk := false, loginType := none
    bodyUserId := some "u1", bodyFilename := none, bodyContent := none
    bodyMaxConnections := none, uploadFilenames := [], fileExists := false }


/-! ## Theorems -/

theorem mapGet_cons {α β : Type} [BEq α] (k0 : α) (v0 : β) (tl : List (α × β)) (k : α) :
    mapGet ((k0, v0) :: tl) k = if k0 == k then some v0 else mapGet tl k := by
  cases h : k0 == k <;> simp [mapGet, List.find?, h]

theorem mapGet_mapSet_self {α β : Type} [BEq α] [LawfulBEq α]
    (m : List (α × β)) (k : α) (v : β) : mapGet (mapSet m k v) k = some v := by
  induction m with
  | nil => simp [mapGet, mapSet, List.find?]
  | cons hd tl ih =>
    obtain ⟨k0, v0⟩ := hd
    rw [mapSet]
    cases h : k0 == k with
    | true => rw [if_pos rfl]; simp [mapGet_cons]
    | false =>
      rw [if_neg (by simp), mapGet_cons, if_neg (by simp [h])]
      exact ih

theorem mapGet_mapSet_ne {α β : Type} [BEq α] [LawfulBEq α]
    (m : List (α × β)) (k k' : α) (v : β) (h : k' ≠ k) :
    mapGet (mapSet m k v) k' = mapGet m k' := by
  induction m with
  | nil =>
    simp only [mapSet]
    rw [mapGet_cons, if_neg (by simp [Ne.symm h])]
  | cons hd tl ih =>
    obtain ⟨k0, v0⟩ := hd
    rw [mapSet]
    cases hk : k0 == k with
    | true =>
      have hkk : k0 = k := by simpa using hk
      rw [if_pos rfl, mapGet_cons, mapGet_cons, if_neg (by simp [Ne.symm h]),
        if_neg (by simp [hkk, Ne.symm h])]
    | false =>
      rw [if_neg (by simp), mapGet_cons, mapGet_cons, ih]

/-- C1 (counterexample): with the authority initialised and the live session
token presented directly as the candidate, the claimed predicate is true but
`validateToken` returns false — the direct-equality disjunct of the claim does
not exist in auth.js (lines 62-103 only ever decrypt). -/
theorem c1_direct_token_counterexample :
    claimValidateToken (authInit 0 "a1b2c3" "srv") (some (Candidate.raw "a1b2c3")) 0 = true
      ∧ validateToken (authInit 0 "a1b2c3" "srv") (some (Candidate.raw "a1b2c3")) 0 = false := by
  constructor <;> rfl

/-- C1 (amended): `validateToken(candidate)` returns true iff candidate is a
well-formed envelope that decrypts successfully under the process secret, whose
embedded token equals the live session token, and whose embedded timestamp is
at most 24 hours old; a raw candidate string — even one equal to the live
session token — is always rejected. -/
theorem c1_validateToken_envelope_only (st : AuthState) (candidate : Option Candidate)
    (now : Int) : validateToken st candidate now = claimValidateTokenAmended st candidate now := by
  unfold validateToken claimValidateTokenAmended
  cases hk : st.secretKey with
  | none => cases candidate with
    | none => rfl
    | some c => cases c <;> rfl
  | some key =>
    cases ht : st.sessionToken with
    | none => cases candidate with
      | none => rfl
      | some c => cases c <;> rfl
    | some tok =>
      cases candidate with
      | none => rfl
      | some c =>
        cases c with
        | raw s => rfl
        | env e =>
          simp only [bne_iff_ne, ne_eq, ite_not, Bool.and_eq_true, beq_iff_eq,
            decide_eq_true_eq]
          by_cases h1 : e.key = key <;> by_cases h2 : e.token = tok <;>
            by_cases h3 : now - e.timestamp > maxAgeMs <;>
            simp [h1, h2, h3, not_lt] <;> omega

/-- C8: a token lifecycle theorem.  An envelope issued by `encryptToken` under
an initialised authority validates immediately; the same envelope fails
validation after a restart that generated a different secret key; and it fails
validation under the original secret once it is more than 24 hours old. -/
theorem c8_token_lifecycle (k k2 : Nat) (t t2 srv srv2 : String) (iv : Nat)
    (issueTime now : Int) (e : Envelope)
    (hIssue : encryptToken (authInit k t srv) issueTime iv = some e) :
    validateToken (authInit k t srv) (some (Candidate.env e)) issueTime = true
      ∧ (k2 ≠ k → validateToken (authInit k2 t2 srv2) (some (Candidate.env e)) issueTime = false)
      ∧ (now - issueTime > maxAgeMs →
          validateToken (authInit k t srv) (some (Candidate.env e)) now = false) := by
  have he : e = { key := k, iv := iv, token := t, timestamp := issueTime } := by
    simpa [encryptToken, authInit] using hIssue.symm
  subst he
  refine ⟨?_, ?_, ?_⟩
  · simp [validateToken, authInit, maxAgeMs]
  · intro hne
    simp [validateToken, authInit, bne_iff_ne, Ne.symm hne]
  · intro hold
    simp [validateToken, authInit, hold]

/-- C8 witness: the lifecycle theorem applied to a concrete envelope issued at
time 0 with key 1, replayed under key 2 and at time 90000000000 ms. -/
theorem c8_token_lifecycle_witness :
    validateToken (authInit 1 "tok" "s")
        (some (Candidate.env { key := 1, iv := 5, token := "tok", timestamp := 0 })) 0 = true
      ∧ validateToken (authInit 2 "t2" "s2")
        (some (Candidate.env { key := 1, iv := 5, token := "tok", timestamp := 0 })) 0 = false
      ∧ validateToken (authInit 1 "tok" "s")
        (some (Candidate.env { key := 1, iv := 5, token := "tok", timestamp := 0 }))
          90000000000 = false := by
  obtain ⟨h1, h2, h3⟩ :=
    c8_token_lifecycle 1 2 "tok" "t2" "s" "s2" 5 0 90000000000
      { key := 1, iv := 5, token := "tok", timestamp := 0 } rfl
  exact ⟨h1, h2 (by decide), h3 (by decide)⟩

theorem keepMsg_eq (userId : String) (m : StoredMessage) :
    keepMsg userId m = (m.userId != userId) := by
  cases h : m.userId != userId <;> simp [keepMsg, h]

theorem clearUserDay_some (userId : String) (msgs ms : List StoredMessage)
    (h : (clearUserDay userId msgs).2 = some ms) :
    ms = msgs.filter (keepMsg userId) := by
  unfold clearUserDay at h
  by_cases h0 : msgs.length - (msgs.filter (keepMsg userId)).length > 0
  · rw [if_pos h0] at h
    by_cases he : (msgs.filter (keepMsg userId)).isEmpty
    · rw [if_pos he] at h
      exact absurd h (by simp)
    · rw [if_neg he] at h
      exact (Option.some.injEq _ _ ▸ h).symm
  · rw [if_neg h0] at h
    have hlen : (msgs.filter (keepMsg userId)).length = msgs.length := by
      have := List.length_filter_le (keepMsg userId) msgs
      omega
    have : msgs.filter (keepMsg userId) = msgs :=
      (List.filter_sublist msgs).eq_of_length hlen
    rw [this]
    exact ((Option.some.injEq _ _).mp h).symm

theorem clearUserDay_clean (userId : String) (msgs : List StoredMessage)
    (h : ∀ m ∈ msgs, keepMsg userId m = true) :
    clearUserDay userId msgs = (0, some msgs) := by
  have hf : msgs.filter (keepMsg userId) = msgs := List.filter_eq_self.mpr h
  unfold clearUserDay
  rw [hf]
  simp

theorem clearUserMessages_mem (userId : String) (arch : Archive) (d : String)
    (ms : List StoredMessage) (h : (d, ms) ∈ (clearUserMessages userId arch).2) :
    ∃ msgs, (d, msgs) ∈ arch ∧ ms = msgs.filter (keepMsg userId) := by
  induction arch with
  | nil => simp [clearUserMessages] at h
  | cons hd rest ih =>
    obtain ⟨d0, msgs0⟩ := hd
    rw [clearUserMessages] at h
    cases hday : (clearUserDay userId msgs0).2 with
    | none =>
      rw [hday] at h
      obtain ⟨msgs, hm, he⟩ := ih h
      exact ⟨msgs, List.mem_cons_of_mem _ hm, he⟩
    | some ms0 =>
      rw [hday] at h
      rcases List.mem_cons.mp h with h1 | h2
      · obtain ⟨hd, hms⟩ := Prod.mk.injEq .. ▸ h1
        exact ⟨msgs0, by simp [hd], by rw [hms]; exact clearUserDay_some _ _ _ hday⟩
      · obtain ⟨msgs, hm, he⟩ := ih h2
        exact ⟨msgs, List.mem_cons_of_mem _ hm, he⟩

theorem clearUserMessages_keep (userId : String) (arch : Archive) (d : String)
    (msgs : List StoredMessage) (hmem : (d, msgs) ∈ arch)
    (hne : msgs.filter (keepMsg userId) ≠ []) :
    (d, msgs.filter (keepMsg userId)) ∈ (clearUserMessages userId arch).2 := by
  induction arch with
  | nil => simp at hmem
  | cons hd rest ih =>
    obtain ⟨d0, msgs0⟩ := hd
    rw [clearUserMessages]
    rcases List.mem_cons.mp hmem with h1 | h2
    · obtain ⟨hd0, hm0⟩ := Prod.mk.injEq .. ▸ h1
      subst hd0; subst hm0
      cases hday : (clearUserDay userId msgs).2 with
      | none =>
        exfalso
        unfold clearUserDay at hday
        by_cases h0 : msgs.length - (msgs.filter (keepMsg userId)).length > 0
        · rw [if_pos h0] at hday
          by_cases he : (msgs.filter (keepMsg userId)).isEmpty
          · exact hne (List.isEmpty_iff.mp he)
          · rw [if_neg he] at hday; exact absurd hday (by simp)
        · rw [if_neg h0] at hday; exact absurd hday (by simp)
      | some ms0 =>
        have := clearUserDay_some userId msgs ms0 hday
        subst this
        exact List.mem_cons_self _ _
    · cases hday : (clearUserDay userId msgs0).2 with
      | none => exact ih h2
      | some ms0 => exact List.mem_cons_of_mem _ (ih h2)

theorem clearUserMessages_count_zero (userId : String) (arch : Archive)
    (h : ∀ p ∈ arch, ∀ m ∈ p.2, keepMsg userId m = true) :
    (clearUserMessages userId arch).1 = 0 := by
  induction arch with
  | nil => rfl
  | cons hd rest ih =>
    obtain ⟨d0, msgs0⟩ := hd
    rw [clearUserMessages]
    have hclean := clearUserDay_clean userId msgs0
      (fun m hm => h (d0, msgs0) (List.mem_cons_self _ _) m hm)
    rw [hclean]
    simpa using ih (fun p hp m hm => h p (List.mem_cons_of_mem _ hp) m hm)

/-- C10: purging a user's messages is idempotent — a second `clearUserMessages`
run purges 0 — and each run keeps every message of a different user unchanged
inside its original day partition (the surviving partition is exactly the
original list filtered to the other users' messages, in order). -/
theorem c10_clear_user_messages (u : String) (a : Archive) :
    (clearUserMessages u (clearUserMessages u a).2).1 = 0
      ∧ (∀ m : StoredMessage, keepMsg u m = true ↔ m.userId ≠ u)
      ∧ (∀ d msgs m, (d, msgs) ∈ a → m ∈ msgs → m.userId ≠ u →
          (d, msgs.filter (keepMsg u)) ∈ (clearUserMessages u a).2
            ∧ m ∈ msgs.filter (keepMsg u)) := by
  refine ⟨?_, ?_, ?_⟩
  · apply clearUserMessages_count_zero
    intro p hp m hm
    obtain ⟨msgs, _, he⟩ := clearUserMessages_mem u a p.1 p.2 hp
    rw [he] at hm
    exact List.of_mem_filter hm
  · intro m
    rw [keepMsg_eq]
    simp [bne_iff_ne]
  · intro d msgs m hmem hm hne
    have hkeep : keepMsg u m = true := by rw [keepMsg_eq]; simpa [bne_iff_ne] using hne
    have hmf : m ∈ msgs.filter (keepMsg u) := List.mem_filter.mpr ⟨hm, hkeep⟩
    refine ⟨clearUserMessages_keep u a d msgs hmem ?_, hmf⟩
    intro hemp
    rw [hemp] at hmf
    simp at hmf

/-- C10 witness: a one-day archive holding a message by user `u1` and one by
`u2`; purging `u1` twice purges 0 the second time, and the `u2` message
survives in the same partition. -/
theorem c10_clear_user_messages_witness :
    (clearUserMessages "u1" (clearUserMessages "u1"
        [("2025-01-01",
          [{ id := "a", role := "user", content := "x", userId := "u1", userName := "n1",
             userAvatar := "v1", timestamp := 0, messageType := "text", file := none },
           { id := "b", role := "user", content := "y", userId := "u2", userName := "n2",
             userAvatar := "v2", timestamp := 1, messageType := "text", file := none }])]).2).1 = 0
      ∧ ("2025-01-01",
          [{ id := "b", role := "user", content := "y", userId := "u2", userName := "n2",
             userAvatar := "v2", timestamp := 1, messageType := "text", file := none }]) ∈
          (clearUserMessages "u1"
            [("2025-01-01",
              [{ id := "a", role := "user", content := "x", userId := "u1", userName := "n1",
                 userAvatar := "v1", timestamp := 0, messageType := "text", file := none },
               { id := "b", role := "user", content := "y", userId := "u2", userName := "n2",
                 userAvatar := "v2", timestamp := 1, messageType := "text", file := none }])]).2 := by
  constructor
  · exact (c10_clear_user_messages "u1" _).1
  · have h := (c10_clear_user_messages "u1"
      [("2025-01-01",
        [{ id := "a", role := "user", content := "x", userId := "u1", userName := "n1",
           userAvatar := "v1", timestamp := 0, messageType := "text", file := none },
         { id := "b", role := "user", content := "y", userId := "u2", userName := "n2",
           userAvatar := "v2", timestamp := 1, messageType := "text", file := none }])]).2.2
    have h2 := h "2025-01-01"
      [{ id := "a", role := "user", content := "x", userId := "u1", userName := "n1",
         userAvatar := "v1", timestamp := 0, messageType := "text", file := none },
       { id := "b", role := "user", content := "y", userId := "u2", userName := "n2",
         userAvatar := "v2", timestamp := 1, messageType := "text", file := none }]
      { id := "b", role := "user", content := "y", userId := "u2", userName := "n2",
        userAvatar := "v2", timestamp := 1, messageType := "text", file := none }
      (by simp) (by simp) (by decide)
    simpa using h2.1

/-! ## Admission control (claim C3) -/

theorem addActivity_users (st : UserManagerState) (uid kind content : String)
    (md : List (String × String)) (e : Entropy) :
    (addActivity st uid kind content md e).users = st.users := by
  unfold addActivity
  cases mapGet st.users uid <;> rfl

theorem addActivity_connections (st : UserManagerState) (uid kind content : String)
    (md : List (String × String)) (e : Entropy) :
    (addActivity st uid kind content md e).connections = st.connections := by
  unfold addActivity
  cases mapGet st.users uid <;> rfl

theorem addActivity_maxConnections (st : UserManagerState) (uid kind content : String)
    (md : List (String × String)) (e : Entropy) :
    (addActivity st uid kind content md e).maxConnections = st.maxConnections := by
  unfold addActivity
  cases mapGet st.users uid <;> rfl

theorem length_filter_mapSet (l : List (String × JsUser)) (uid : String) (u u' : JsUser)
    (hget : mapGet l uid = some u) :
    ((mapSet l uid u').filter (fun p => p.2.isOnline)).length
        + (if u.isOnline then 1 else 0)
      = (l.filter (fun p => p.2.isOnline)).length + (if u'.isOnline then 1 else 0) := by
  induction l with
  | nil => simp [mapGet, List.find?] at hget
  | cons hd tl ih =>
    obtain ⟨k0, v0⟩ := hd
    rw [mapGet_cons] at hget
    rw [mapSet]
    cases hk : k0 == uid with
    | true =>
      rw [hk, if_pos rfl] at hget
      have hv : v0 = u := by simpa using hget
      subst hv
      rw [if_pos rfl]
      simp only [List.filter_cons]
      cases hu : v0.isOnline <;> cases hu' : u'.isOnline <;> simp
    | false =>
      rw [hk, if_neg (by simp)] at hget
      rw [if_neg (by simp)]
      have := ih hget
      simp only [List.filter_cons]
      cases hv0 : v0.isOnline <;> simp <;> omega

theorem one_le_length_filter (l : List (String × JsUser)) (uid : String) (u : JsUser)
    (hget : mapGet l uid = some u) (hon : u.isOnline = true) :
    1 ≤ (l.filter (fun p => p.2.isOnline)).length := by
  induction l with
  | nil => simp [mapGet, List.find?] at hget
  | cons hd tl ih =>
    obtain ⟨k0, v0⟩ := hd
    rw [mapGet_cons] at hget
    cases hk : k0 == uid with
    | true =>
      rw [hk, if_pos rfl] at hget
      have hv : v0 = u := by simpa using hget
      subst hv
      simp [List.filter_cons, hon]
    | false =>
      rw [hk, if_neg (by simp)] at hget
      have := ih hget
      simp only [List.filter_cons]
      cases hv0 : v0.isOnline <;> simp <;> omega

theorem addUser_ok_of_canAccept (s : UserManagerState) (ws : Nat) (tok : Option Candidate) (dev : Option String)
    (e : Entropy) (h : canAcceptConnection s = true) :
    ∃ u2 s2, addUser s ws tok dev e = (.ok u2, s2) := by
  unfold addUser
  rw [h, if_neg (by simp)]
  exact ⟨_, _, rfl⟩

theorem removeUser_users (st : UserManagerState) (ws : Nat) (e : Entropy)
    (uid : String) (u : JsUser) (hconn : mapGet st.connections ws = some uid)
    (huser : mapGet st.users uid = some u) :
    (removeUser st ws e).2.users
      = mapSet st.users uid { u with isOnline := false, lastActiveAt := e.now } := by
  unfold removeUser
  rw [hconn]
  dsimp only
  rw [huser]
  dsimp only
  rw [addActivity_users]

theorem removeUser_maxConnections (st : UserManagerState) (ws : Nat) (e : Entropy)
    (uid : String) (u : JsUser) (hconn : mapGet st.connections ws = some uid)
    (huser : mapGet st.users uid = some u) :
    (removeUser st ws e).2.maxConnections = st.maxConnections := by
  unfold removeUser
  rw [hconn]
  dsimp only
  rw [huser]
  dsimp only
  rw [addActivity_maxConnections]

/-- C3: admission control.  At capacity (online count equal to the configured
maximum) `addUser` refuses with code MAX_CONNECTIONS and leaves the registry
state completely untouched, so no user state is created for the refused
connection; and once `removeUser` marks any currently online user offline, a
subsequent `addUser` is admitted. -/
theorem c3_admission_control (st : UserManagerState) (ws ws2 : Nat)
    (token token2 : Option Candidate) (dev dev2 : Option String) (e e2 eR : Entropy)
    (uid : String) (u : JsUser) :
    (getOnlineCount st = st.maxConnections →
        addUser st ws token dev e = (.failure "连接数已达上限" "MAX_CONNECTIONS", st))
      ∧ (mapGet st.connections ws = some uid → mapGet st.users uid = some u →
          u.isOnline = true → getOnlineCount st ≤ st.maxConnections →
          canAcceptConnection ((removeUser st ws eR).2) = true
            ∧ ∃ u2 st2, addUser ((removeUser st ws eR).2) ws2 token2 dev2 e2
                = (.ok u2, st2)) := by
  constructor
  · intro hfull
    have hcan : canAcceptConnection st = false := by
      simp [canAcceptConnection, hfull]
    unfold addUser
    rw [hcan, if_pos rfl]
  · intro hconn huser hon hle
    have husers := removeUser_users st ws eR uid u hconn huser
    have hmax := removeUser_maxConnections st ws eR uid u hconn huser
    have hcount := length_filter_mapSet st.users uid u
      { u with isOnline := false, lastActiveAt := eR.now } huser
    rw [hon] at hcount
    simp only [if_pos rfl] at hcount
    have hpos := one_le_length_filter st.users uid u huser hon
    unfold getOnlineCount at hle
    have hcan2 : canAcceptConnection ((removeUser st ws eR).2) = true := by
      unfold canAcceptConnection getOnlineCount
      rw [husers, hmax]
      simp only [decide_eq_true_eq]
      simp at hcount
      omega
    exact ⟨hcan2, addUser_ok_of_canAccept _ ws2 token2 dev2 e2 hcan2⟩

/-- C3 witness: with the registry at its capacity of 2, a third connection is
refused with MAX_CONNECTIONS and no state change; after user device_d1
disconnects, the next connection is admitted. -/
theorem c3_admission_control_witness :
    addUser stFull 1 (some (Candidate.raw "t3")) (some "d3") entW
        = (.failure "连接数已达上限" "MAX_CONNECTIONS", stFull)
      ∧ canAcceptConnection ((removeUser stFull 1 entW).2) = true
      ∧ ∃ u2 st2, addUser ((removeUser stFull 1 entW).2) 3 (some (Candidate.raw "t3")) (some "d3") entW
          = (.ok u2, st2) := by
  have h := c3_admission_control stFull 1 3 (some (Candidate.raw "t3")) (some (Candidate.raw "t3")) (some "d3") (some "d3")
    entW entW entW "device_d1"
    { id := "device_d1", name := "nA", avatar := "aA", token := some (Candidate.raw "tA"),
      deviceId := some "d1", wsId := 1, connectedAt := 0, lastActiveAt := 0,
      isOnline := true }
  have h2 := h.2 (by decide) (by decide) (by decide) (by decide)
  exact ⟨h.1 (by decide), h2.1, h2.2⟩

/-! ## Identity stability (claim C7) -/

theorem string_data_append (s t : String) : (s ++ t).data = s.data ++ t.data := by
  cases s
  cases t
  rfl

theorem string_append_right_inj (a : String) {b c : String} (h : a ++ b = a ++ c) :
    b = c := by
  cases a with | mk da =>
  cases b with | mk db =>
  cases c with | mk dc =>
  have hd := congrArg String.data h
  rw [string_data_append, string_data_append] at hd
  exact congrArg String.mk (List.append_cancel_left hd)

theorem device_key_ne_user_key (s t : String) : "device_" ++ s ≠ "user_" ++ t := by
  intro h
  have hd := congrArg String.data h
  rw [string_data_append, string_data_append] at hd
  have hh := congrArg List.head? hd
  rw [show ("device_".data ++ s.data).head? = some 'd' from rfl,
    show ("user_".data ++ t.data).head? = some 'u' from rfl] at hh
  exact absurd hh (by decide)

theorem jsOr_self (a : String) : jsOr a a = a := by
  unfold jsOr
  split <;> rfl

theorem strTruthy_some_iff (s : String) : strTruthy (some s) = true ↔ s ≠ "" := by
  simp [strTruthy]

theorem deviceIdentityInvL_nil : deviceIdentityInvL [] := by
  intro d hd u hget
  simp [mapGet, List.find?] at hget

theorem deviceIdentityInvL_mapSet_same (users : List (String × JsUser)) (uid : String)
    (u0 u1 : JsUser) (hinv : deviceIdentityInvL users)
    (hget : mapGet users uid = some u0) (hn : u1.name = u0.name)
    (ha : u1.avatar = u0.avatar) : deviceIdentityInvL (mapSet users uid u1) := by
  intro d hd u hg
  by_cases he : "device_" ++ d = uid
  · rw [← he] at hget
    rw [← he, mapGet_mapSet_self] at hg
    have hu : u = u1 := by simpa using hg.symm
    subst hu
    obtain ⟨h1, h2⟩ := hinv d hd u0 hget
    exact ⟨hn.trans h1, ha.trans h2⟩
  · rw [mapGet_mapSet_ne _ _ _ _ he] at hg
    exact hinv d hd u hg

theorem deviceIdentityInvL_addUser (st : UserManagerState) (ws : Nat)
    (token : Option Candidate) (deviceId : Option String) (e : Entropy)
    (hinv : deviceIdentityInvL st.users) :
    deviceIdentityInvL (addUser st ws token deviceId e).2.users := by
  unfold addUser
  by_cases hcan : canAcceptConnection st = false
  · rw [if_pos hcan]
    exact hinv
  · rw [if_neg hcan]
    dsimp only
    rw [addActivity_users]
    by_cases hdev : strTruthy deviceId = true
    · rw [if_pos hdev, if_pos hdev, if_pos hdev]
      have hd0 : deviceId.getD "" ≠ "" := by
        cases deviceId with
        | none => simp [strTruthy] at hdev
        | some s => simpa [strTruthy] using hdev
      rw [show generateIdentityFromDeviceId (deviceId.getD "") e
          = deviceIdentity (deviceId.getD "") from if_neg hd0]
      intro d hd u hg
      by_cases he : "device_" ++ d = "device_" ++ deviceId.getD ""
      · have hdd : d = deviceId.getD "" := string_append_right_inj _ he
        rw [← he, mapGet_mapSet_self] at hg
        have hu : u = _ := (Option.some.injEq _ _).mp hg.symm
        subst hu
        rw [← hdd]
        cases hex : mapGet st.users ("device_" ++ d) with
        | none => simp [jsOr]
        | some uex =>
          obtain ⟨h1, h2⟩ := hinv d hd uex hex
          simp only [Option.map_some', Option.getD_some]
          rw [h1, h2, jsOr_self, jsOr_self]
          exact ⟨rfl, rfl⟩
      · rw [mapGet_mapSet_ne _ _ _ _ he] at hg
        exact hinv d hd u hg
    · rw [if_neg hdev, if_neg hdev, if_neg hdev]
      intro d hd u hg
      have hne : ("device_" ++ d) ≠ generateUserId e := by
        unfold generateUserId
        exact device_key_ne_user_key d _
      dsimp only at hg
      rw [mapGet_mapSet_ne _ _ _ _ hne] at hg
      exact hinv d hd u hg

theorem deviceIdentityInvL_removeUser (st : UserManagerState) (ws : Nat) (e : Entropy)
    (hinv : deviceIdentityInvL st.users) :
    deviceIdentityInvL (removeUser st ws e).2.users := by
  unfold removeUser
  cases hconn : mapGet st.connections ws with
  | none => exact hinv
  | some uid =>
    dsimp only
    cases huser : mapGet st.users uid with
    | none => exact hinv
    | some u =>
      dsimp only
      rw [addActivity_users]
      exact deviceIdentityInvL_mapSet_same st.users uid u _ hinv huser rfl rfl

theorem deviceIdentityInvL_kickUser (st : UserManagerState) (userId : String) (e : Entropy)
    (hinv : deviceIdentityInvL st.users) :
    deviceIdentityInvL (kickUser st userId e).2.users := by
  unfold kickUser
  cases huser : mapGet st.users userId with
  | none => exact hinv
  | some u =>
    dsimp only
    rw [addActivity_users]
    exact deviceIdentityInvL_mapSet_same st.users userId u _ hinv huser rfl rfl

theorem deviceIdentityInvL_updateActivity (st : UserManagerState) (ws : Nat) (now : Int)
    (hinv : deviceIdentityInvL st.users) :
    deviceIdentityInvL (updateActivity st ws now).users := by
  unfold updateActivity
  cases hconn : mapGet st.connections ws with
  | none => exact hinv
  | some uid =>
    dsimp only
    cases huser : mapGet st.users uid with
    | none => exact hinv
    | some u =>
      exact deviceIdentityInvL_mapSet_same st.users uid u _ hinv huser rfl rfl

theorem deviceIdentityInvL_applyOp (st : UserManagerState) (op : UMOp)
    (hinv : deviceIdentityInvL st.users) :
    deviceIdentityInvL (applyOp st op).users := by
  cases op with
  | add ws token deviceId e => exact deviceIdentityInvL_addUser st ws token deviceId e hinv
  | remove ws e => exact deviceIdentityInvL_removeUser st ws e hinv
  | kick userId e => exact deviceIdentityInvL_kickUser st userId e hinv
  | touch ws now => exact deviceIdentityInvL_updateActivity st ws now hinv
  | setMax n => exact hinv

theorem deviceIdentityInvL_runOps (ops : List UMOp) (st : UserManagerState)
    (hinv : deviceIdentityInvL st.users) :
    deviceIdentityInvL (runOps st ops).users := by
  induction ops generalizing st with
  | nil => exact hinv
  | cons op rest ih => exact ih _ (deviceIdentityInvL_applyOp st op hinv)

theorem addUser_ok_canAccept (st : UserManagerState) (ws : Nat)
    (token : Option Candidate) (deviceId : Option String) (e : Entropy) (u : JsUser)
    (st2 : UserManagerState) (h : addUser st ws token deviceId e = (.ok u, st2)) :
    canAcceptConnection st = true := by
  by_cases hcan : canAcceptConnection st = false
  · unfold addUser at h
    rw [if_pos hcan] at h
    exact absurd (congrArg Prod.fst h) (by simp)
  · simpa using hcan

theorem addUser_ok_identity (st : UserManagerState) (ws : Nat) (token : Option Candidate)
    (d : String) (e : Entropy) (hd : d ≠ "")
    (hinv : deviceIdentityInvL st.users) (hcan : canAcceptConnection st = true) :
    ∃ u st2, addUser st ws token (some d) e = (.ok u, st2)
      ∧ u.id = "device_" ++ d ∧ u.name = (deviceIdentity d).1
      ∧ u.avatar = (deviceIdentity d).2 := by
  have hdev : strTruthy (some d) = true := (strTruthy_some_iff d).mpr hd
  unfold addUser
  rw [hcan, if_neg (by simp)]
  dsimp only
  refine ⟨_, _, rfl, ?_, ?_, ?_⟩
  · simp only [hdev, eq_self_iff_true, if_true, Option.getD_some]
  · simp only [hdev, eq_self_iff_true, if_true, Option.getD_some]
    rw [show generateIdentityFromDeviceId d e = deviceIdentity d
      from if_neg hd]
    cases hex : mapGet st.users ("device_" ++ d) with
    | none => simp [jsOr]
    | some uex =>
      obtain ⟨h1, _⟩ := hinv d hd uex hex
      simp only [Option.map_some', Option.getD_some]
      rw [h1, jsOr_self]
  · simp only [hdev, eq_self_iff_true, if_true, Option.getD_some]
    rw [show generateIdentityFromDeviceId d e = deviceIdentity d
      from if_neg hd]
    cases hex : mapGet st.users ("device_" ++ d) with
    | none => simp [jsOr]
    | some uex =>
      obtain ⟨_, h2⟩ := hinv d hd uex hex
      simp only [Option.map_some', Option.getD_some]
      rw [h2, jsOr_self]

/-- C7 (amended): for every non-empty device fingerprint `d`, any two
successful admissions supplying the same `deviceId = d` — against any two
reachable registry states, in particular in the same process or across process
restarts — resolve to the same `(userId, name, avatar)` triple, namely
`device_<d>` with the identity deterministically derived from `d`. -/
theorem c7_identity_stability (ops1 ops2 : List UMOp) (lm1 lm2 : Option Nat)
    (d : String) (hd : d ≠ "") (ws1 ws2 : Nat) (tok1 tok2 : Option Candidate)
    (e1 e2 : Entropy) (u1 u2 : JsUser) (st1 st2 : UserManagerState)
    (h1 : addUser (runOps (umInit lm1) ops1) ws1 tok1 (some d) e1 = (.ok u1, st1))
    (h2 : addUser (runOps (umInit lm2) ops2) ws2 tok2 (some d) e2 = (.ok u2, st2)) :
    u1.id = u2.id ∧ u1.name = u2.name ∧ u1.avatar = u2.avatar := by
  have hi1 := deviceIdentityInvL_runOps ops1 (umInit lm1) deviceIdentityInvL_nil
  have hi2 := deviceIdentityInvL_runOps ops2 (umInit lm2) deviceIdentityInvL_nil
  obtain ⟨v1, w1, heq1, hidA, hnameA, havA⟩ := addUser_ok_identity _ ws1 tok1 d e1 hd hi1
    (addUser_ok_canAccept _ _ _ _ _ _ _ h1)
  obtain ⟨v2, w2, heq2, hidB, hnameB, havB⟩ := addUser_ok_identity _ ws2 tok2 d e2 hd hi2
    (addUser_ok_canAccept _ _ _ _ _ _ _ h2)
  have hv1 : v1 = u1 := by
    have hp := congrArg Prod.fst (heq1.symm.trans h1)
    simpa using hp
  have hv2 : v2 = u2 := by
    have hp := congrArg Prod.fst (heq2.symm.trans h2)
    simpa using hp
  subst hv1
  subst hv2
  exact ⟨hidA.trans hidB.symm, hnameA.trans hnameB.symm, havA.trans havB.symm⟩

/-- C7 witness: admission with deviceId "dev1" into a fresh registry and into a
registry that already admitted "dev1" earlier yields the same identity triple. -/
theorem c7_identity_stability_witness :
    addUserTriple (addUser (runOps (umInit none) []) 1 (some (Candidate.raw "t")) (some "dev1") entA).1
      = addUserTriple (addUser (runOps (umInit none)
          [UMOp.add 5 (some (Candidate.raw "s")) (some "dev1") entB]) 2 (some (Candidate.raw "r")) (some "dev1") entB).1 := by
  obtain ⟨u1, st1, h1⟩ : ∃ u st2,
      addUser (runOps (umInit none) []) 1 (some (Candidate.raw "t")) (some "dev1") entA
        = (.ok u, st2) := ⟨_, _, rfl⟩
  obtain ⟨u2, st2, h2⟩ : ∃ u st2,
      addUser (runOps (umInit none) [UMOp.add 5 (some (Candidate.raw "s")) (some "dev1") entB]) 2
          (some (Candidate.raw "r")) (some "dev1") entB = (.ok u, st2) := ⟨_, _, rfl⟩
  have h := c7_identity_stability [] [UMOp.add 5 (some (Candidate.raw "s")) (some "dev1") entB] none none
    "dev1" (by decide) 1 2 (some (Candidate.raw "t")) (some (Candidate.raw "r")) entA entB u1 u2 st1 st2 h1 h2
  rw [h1, h2]
  simp only [addUserTriple]
  rw [h.1, h.2.1, h.2.2]

/-- C7 (counterexample): the empty string is a device fingerprint string for
which two admissions supplying the same deviceId yield different user ids — a
falsy deviceId takes the random branch of addUser (`deviceId ? ... : ...`), so
the identity triple is not stable for it. -/
theorem c7_empty_device_counterexample :
    (addUserTriple (addUser (umInit none) 1 (some (Candidate.raw "t")) (some "") entA).1).1
        = "user_0_aaaaaa"
      ∧ (addUserTriple (addUser (umInit none) 2 (some (Candidate.raw "t")) (some "") entB).1).1
        = "user_1_bbbbbb"
      ∧ ("user_0_aaaaaa" : String) ≠ "user_1_bbbbbb" := by
  exact ⟨by decide, by decide, by decide⟩

/-! ## Console isolation (claim C6) -/

theorem mem_mapSet {α β : Type} [BEq α] (m : List (α × β)) (k : α) (v : β)
    (p : α × β) (h : p ∈ mapSet m k v) : p = (k, v) ∨ p ∈ m := by
  induction m with
  | nil => simpa [mapSet] using h
  | cons hd tl ih =>
    obtain ⟨k0, v0⟩ := hd
    rw [mapSet] at h
    by_cases hk : (k0 == k) = true
    · rw [if_pos hk] at h
      rcases List.mem_cons.mp h with h1 | h2
      · exact Or.inl h1
      · exact Or.inr (List.mem_cons_of_mem _ h2)
    · rw [if_neg hk] at h
      rcases List.mem_cons.mp h with h1 | h2
      · exact Or.inr (h1 ▸ List.mem_cons_self _ _)
      · rcases ih h2 with h3 | h4
        · exact Or.inl h3
        · exact Or.inr (List.mem_cons_of_mem _ h4)

theorem mapGet_mem {α β : Type} [BEq α] [LawfulBEq α] (m : List (α × β)) (k : α) (v : β)
    (h : mapGet m k = some v) : (k, v) ∈ m := by
  induction m with
  | nil => simp [mapGet, List.find?] at h
  | cons hd tl ih =>
    obtain ⟨k0, v0⟩ := hd
    rw [mapGet_cons] at h
    by_cases hk : (k0 == k) = true
    · rw [if_pos hk] at h
      have hv : v0 = v := by simpa using h
      have hke : k0 = k := by simpa using hk
      subst hv
      subst hke
      exact List.mem_cons_self _ _
    · rw [if_neg hk] at h
      exact List.mem_cons_of_mem _ (ih h)

theorem addUser_users_mem (um : UserManagerState) (ws : Nat) (tok : Option Candidate)
    (dev : Option String) (e : Entropy) (p : String × JsUser)
    (h : p ∈ (addUser um ws tok dev e).2.users) : p.2.wsId = ws ∨ p ∈ um.users := by
  unfold addUser at h
  by_cases hcan : canAcceptConnection um = false
  · rw [if_pos hcan] at h
    exact Or.inr h
  · rw [if_neg hcan] at h
    dsimp only at h
    rw [addActivity_users] at h
    rcases mem_mapSet _ _ _ _ h with h1 | h2
    · subst h1
      exact Or.inl rfl
    · exact Or.inr h2

theorem addUser_failure_state (um : UserManagerState) (ws : Nat) (tok : Option Candidate)
    (dev : Option String) (e : Entropy) (m c : String) (um2 : UserManagerState)
    (h : addUser um ws tok dev e = (.failure m c, um2)) : um2 = um := by
  unfold addUser at h
  by_cases hcan : canAcceptConnection um = false
  · rw [if_pos hcan] at h
    exact (congrArg Prod.snd h).symm
  · rw [if_neg hcan] at h
    dsimp only at h
    exact absurd (congrArg Prod.fst h) (by simp)

theorem removeUser_users_mem (um : UserManagerState) (ws : Nat) (e : Entropy)
    (p : String × JsUser) (h : p ∈ (removeUser um ws e).2.users) :
    ∃ q ∈ um.users, p.2.wsId = q.2.wsId := by
  unfold removeUser at h
  cases hconn : mapGet um.connections ws with
  | none =>
    rw [hconn] at h
    exact ⟨p, h, rfl⟩
  | some uid =>
    rw [hconn] at h
    dsimp only at h
    cases huser : mapGet um.users uid with
    | none =>
      rw [huser] at h
      dsimp only at h
      exact ⟨p, h, rfl⟩
    | some u =>
      rw [huser] at h
      dsimp only at h
      rw [addActivity_users] at h
      rcases mem_mapSet _ _ _ _ h with h1 | h2
      · subst h1
        exact ⟨(uid, u), mapGet_mem _ _ _ huser, rfl⟩
      · exact ⟨p, h2, rfl⟩

theorem routerInv_srvInit (k : Nat) (tokE srvE : String) (lm : Option Nat) :
    routerInv (srvInit k tokE srvE lm) := by
  refine ⟨?_, ?_, ?_⟩ <;> intro x hx <;> simp [srvInit, umInit] at hx

theorem routerInv_accept (st : ServerState) (q : ConnQuery) (ip : Option String)
    (e : Entropy) (hinv : routerInv st) : routerInv (acceptConnection st q ip e).2 := by
  obtain ⟨hsv, hus, hiso⟩ := hinv
  unfold acceptConnection
  dsimp only
  split
  · exact ⟨fun ws hws => Nat.lt_succ_of_lt (hsv ws hws),
      fun p hp => Nat.lt_succ_of_lt (hus p hp), hiso⟩
  · split
    · refine ⟨?_, ?_, ?_⟩
      · intro ws hws
        rcases List.mem_append.mp hws with hA | hB
        · exact Nat.lt_succ_of_lt (hsv ws hA)
        · have : ws = st.nextWs := by simpa using hB
          subst this
          exact Nat.lt_succ_self _
      · intro p hp
        exact Nat.lt_succ_of_lt (hus p hp)
      · intro ws hws p hp
        rcases List.mem_append.mp hws with hA | hB
        · exact hiso ws hA p hp
        · have : ws = st.nextWs := by simpa using hB
          subst this
          exact Nat.ne_of_lt (hus p hp)
    · split
      · next m c um2 heq =>
        have hum : um2 = st.um := addUser_failure_state _ _ _ _ _ _ _ _ heq
        subst hum
        exact ⟨fun ws hws => Nat.lt_succ_of_lt (hsv ws hws),
          fun p hp => Nat.lt_succ_of_lt (hus p hp), hiso⟩
      · next u um2 heq =>
        refine ⟨fun ws hws => Nat.lt_succ_of_lt (hsv ws hws), ?_, ?_⟩
        · intro p hp
          have hp2 : p ∈ (addUser st.um st.nextWs q.token
              (some (resolveDeviceId q ip
                (isLocalhostIP ip && validateServerToken st.auth q.serverToken))) e).2.users := by
            rw [heq]
            exact hp
          rcases addUser_users_mem _ _ _ _ _ _ hp2 with h1 | h2
          · rw [h1]
            exact Nat.lt_succ_self _
          · exact Nat.lt_succ_of_lt (hus p h2)
        · intro ws hws p hp
          have hp2 : p ∈ (addUser st.um st.nextWs q.token
              (some (resolveDeviceId q ip
                (isLocalhostIP ip && validateServerToken st.auth q.serverToken))) e).2.users := by
            rw [heq]
            exact hp
          rcases addUser_users_mem _ _ _ _ _ _ hp2 with h1 | h2
          · rw [h1]
            exact Nat.ne_of_gt (hsv ws hws)
          · exact hiso ws hws p h2

theorem routerInv_close (st : ServerState) (ws : Nat) (e : Entropy)
    (hinv : routerInv st) : routerInv (handleClose st ws e) := by
  obtain ⟨hsv, hus, hiso⟩ := hinv
  unfold handleClose
  by_cases hc : st.serverViews.contains ws = true
  · rw [if_pos hc]
    refine ⟨?_, hus, ?_⟩
    · intro w hw
      exact hsv w (List.mem_of_mem_filter hw)
    · intro w hw p hp
      exact hiso w (List.mem_of_mem_filter hw) p hp
  · rw [if_neg hc]
    refine ⟨hsv, ?_, ?_⟩
    · intro p hp
      obtain ⟨q2, hq, he⟩ := removeUser_users_mem st.um ws e p hp
      rw [he]
      exact hus q2 hq
    · intro w hw p hp
      obtain ⟨q2, hq, he⟩ := removeUser_users_mem st.um ws e p hp
      rw [he]
      exact hiso w hw q2 hq

theorem routerInv_runSrv (evs : List SrvEvent) (st : ServerState)
    (hinv : routerInv st) : routerInv (runSrv st evs) := by
  induction evs generalizing st with
  | nil => exact hinv
  | cons ev rest ih =>
    cases ev with
    | connect q ip e => exact ih _ (routerInv_accept st q ip e hinv)
    | disconnect ws e => exact ih _ (routerInv_close st ws e hinv)

theorem acceptConnection_console_um (st : ServerState) (q : ConnQuery)
    (ip : Option String) (e : Entropy) (ws : Nat)
    (h : (acceptConnection st q ip e).1 = ConnOutcome.console ws) :
    (acceptConnection st q ip e).2.um = st.um := by
  rcases hE : acceptConnection st q ip e with ⟨out, st2⟩
  rw [hE] at h
  dsimp only at h ⊢
  unfold acceptConnection at hE
  dsimp only at hE
  split at hE
  · have hh := (congrArg Prod.fst hE).trans (h)
    simp at hh
  · split at hE
    · have hs2 := show _ = st2 from congrArg Prod.snd hE
      rw [← hs2]
    · split at hE
      · have hh := (congrArg Prod.fst hE).trans (h)
        simp at hh
      · have hh := (congrArg Prod.fst hE).trans (h)
        simp at hh

/-- C6: for every reachable router state, admitting a console connection leaves
the User Registry completely unchanged (so it is never counted against
maxConnections and does not reduce remaining client capacity), and no console
socket ever backs any entry of the broadcast user list. -/
theorem c6_console_isolation (k : Nat) (tokE srvE : String) (lm : Option Nat)
    (evs : List SrvEvent) (q : ConnQuery) (ip : Option String) (e : Entropy) :
    (∀ ws, (acceptConnection (runSrv (srvInit k tokE srvE lm) evs) q ip e).1
          = ConnOutcome.console ws →
        (acceptConnection (runSrv (srvInit k tokE srvE lm) evs) q ip e).2.um
            = (runSrv (srvInit k tokE srvE lm) evs).um
          ∧ canAcceptConnection
                (acceptConnection (runSrv (srvInit k tokE srvE lm) evs) q ip e).2.um
              = canAcceptConnection (runSrv (srvInit k tokE srvE lm) evs).um
          ∧ getOnlineCount
                (acceptConnection (runSrv (srvInit k tokE srvE lm) evs) q ip e).2.um
              = getOnlineCount (runSrv (srvInit k tokE srvE lm) evs).um)
      ∧ (∀ ws ∈ (runSrv (srvInit k tokE srvE lm) evs).serverViews,
          ∀ u ∈ broadcastUserListUsers (runSrv (srvInit k tokE srvE lm) evs),
            u.wsId ≠ ws) := by
  constructor
  · intro ws h
    have hum := acceptConnection_console_um _ q ip e ws h
    exact ⟨hum, by rw [hum], by rw [hum]⟩
  · have hinv := routerInv_runSrv evs _ (routerInv_srvInit k tokE srvE lm)
    obtain ⟨_, _, hiso⟩ := hinv
    intro ws hws u hu
    unfold broadcastUserListUsers getOnlineUsers at hu
    obtain ⟨hu1, _⟩ := List.mem_filter.mp hu
    obtain ⟨p, hp, hpe⟩ := List.mem_map.mp hu1
    exact hpe ▸ hiso ws hws p hp

/-- C6 witness: after a concrete console admission (socket 0) and client
admission (socket 1), a further console admission leaves the registry unchanged
and the console socket 0 backs no entry of the broadcast user list. -/
theorem c6_console_isolation_witness :
    (acceptConnection (runSrv (srvInit 7 "tok" "srv" none) c6evs) qConsole
          (some "::1") entW).2.um
        = (runSrv (srvInit 7 "tok" "srv" none) c6evs).um
      ∧ ((broadcastUserListUsers (runSrv (srvInit 7 "tok" "srv" none) c6evs)).all
          (fun u => u.wsId != 0)) = true := by
  have h := c6_console_isolation 7 "tok" "srv" none c6evs qConsole (some "::1") entW
  refine ⟨(h.1 2 (by decide)).1, List.all_eq_true.mpr ?_⟩
  intro u hu
  simpa using h.2 0 (by decide) u hu

/-- C2: console-credential checking.  A connection is registered as a console
only when it originates from loopback and `validateServerToken` accepts its
credential; `validateServerToken` is a boolean check of the candidate against
the second, independently generated console secret; a non-loopback origin or a
failed check never yields a console; and a connection with no valid credential
of any class is observed as a rejected connection (close 4001) — the
classification is a total function into outcomes, never an exception. -/
theorem c2_server_console_check (st : ServerState) (q : ConnQuery)
    (ip : Option String) (e : Entropy) :
    (∀ ws, (acceptConnection st q ip e).1 = ConnOutcome.console ws →
        isLocalhostIP ip = true ∧ validateServerToken st.auth q.serverToken = true)
      ∧ (validateServerToken st.auth q.serverToken = true ↔
          ∃ s, st.auth.serverSecret = some s ∧ q.serverToken = some s)
      ∧ ((isLocalhostIP ip = false ∨ validateServerToken st.auth q.serverToken = false) →
          ∀ ws, (acceptConnection st q ip e).1 ≠ ConnOutcome.console ws)
      ∧ (validateServerToken st.auth q.serverToken = false →
          validateToken st.auth q.token e.now = false →
          (isLocalhostIP ip && q.localFlag) = false →
          (acceptConnection st q ip e).1 = ConnOutcome.rejected 4001) := by
  have hconsole : ∀ ws, (acceptConnection st q ip e).1 = ConnOutcome.console ws →
      isLocalhostIP ip = true ∧ validateServerToken st.auth q.serverToken = true := by
    intro ws h
    rcases hE : acceptConnection st q ip e with ⟨out, st2⟩
    rw [hE] at h
    dsimp only at h
    unfold acceptConnection at hE
    dsimp only at hE
    split at hE
    · have hh := (congrArg Prod.fst hE).trans h
      simp at hh
    · split at hE
      · next hcond =>
        have hc2 : isLocalhostIP ip = true
            ∧ validateServerToken st.auth q.serverToken = true := by
          simpa using hcond
        exact hc2
      · split at hE
        · have hh := (congrArg Prod.fst hE).trans h
          simp at hh
        · have hh := (congrArg Prod.fst hE).trans h
          simp at hh
  refine ⟨hconsole, ?_, ?_, ?_⟩
  · unfold validateServerToken
    cases hs : st.auth.serverSecret with
    | none => simp
    | some s =>
      cases hc : q.serverToken with
      | none => simp
      | some c =>
        simp only [beq_iff_eq]
        constructor
        · intro hce
          exact ⟨s, rfl, by rw [hce]⟩
        · rintro ⟨s2, hs2, hc2⟩
          have hss : s2 = s := by simpa using hs2.symm
          subst hss
          simpa using hc2
  · intro hor ws hcon
    obtain ⟨hl, hv⟩ := hconsole ws hcon
    rcases hor with h1 | h2
    · rw [hl] at h1
      exact absurd h1 (by simp)
    · rw [hv] at h2
      exact absurd h2 (by simp)
  · intro hsrv htok hlocal
    unfold acceptConnection
    dsimp only
    rw [if_pos ⟨by simp [hsrv], htok, hlocal⟩]

/-! ## Submit fan-out (claim C5) -/

theorem saveMessage_userId (arch : Archive) (m : MessageInput) (e : Entropy)
    (i : String) (hm : m.userId = some i) (hi : i ≠ "") :
    (saveMessage arch m e).1.userId = i := by
  unfold saveMessage
  dsimp only
  rw [hm]
  dsimp only [Option.getD_some]
  unfold jsOr
  rw [if_neg hi]

theorem sendChatMessage_form (st : ServerState) (cm : StoredMessage) (a : Nat)
    (h1 : cm.userId ≠ "")
    (h2 : ∃ u2, getUserById st.um cm.userId = some u2 ∧ u2.wsId = a)
    (h3 : readyState st a = 1) :
    sendChatMessage st cm
      = (a, OutMsg.newChatMessage cm)
          :: sendToServers st (OutMsg.newChatMessage cm) := by
  obtain ⟨u2, hu2, hw⟩ := h2
  unfold sendChatMessage sendToUser
  rw [if_pos h1]
  rw [hu2]
  dsimp only
  rw [hw, if_pos (by simp [h3])]
  rfl

theorem handleSubmit_deliveries (st : ServerState) (a : Nat) (e : Entropy)
    (uid : String) (u : JsUser)
    (hconn : mapGet st.um.connections a = some uid)
    (huser : mapGet st.um.users uid = some u)
    (hkey : u.id = uid) (hid : uid ≠ "") (hws : u.wsId = a)
    (hlive : readyState st a = 1)
    (htext : trimTruthy st.currentText = true) :
    ∃ cm : StoredMessage,
      (handleSubmit st a e).2
        = ((a, OutMsg.newChatMessage cm)
            :: (liveConsoles st).map (fun c => (c, OutMsg.newChatMessage cm)))
          ++ [(a, OutMsg.ack "submit")]
      ∧ (handleSubmit st a e).1.currentText = "" := by
  have hbyws : getUserByWs st.um a = some u := by
    unfold getUserByWs
    rw [hconn]
    exact huser
  have hupd : (updateActivity st.um a e.now).users
      = mapSet st.um.users uid { u with lastActiveAt := e.now } := by
    unfold updateActivity
    rw [hconn]
    dsimp only
    rw [huser]
  unfold handleSubmit
  rw [hbyws]
  dsimp only [Option.map_some']
  rw [if_pos htext]
  dsimp only
  refine ⟨(saveMessage st.archive
      { role := "user", content := st.currentText, userId := some u.id,
        userName := some u.name, userAvatar := some u.avatar,
        messageType := none, file := none } e).1, ?_, rfl⟩
  refine congrArg (fun l => l ++ [(a, OutMsg.ack "submit")]) ?_
  have hmid : (saveMessage st.archive
      { role := "user", content := st.currentText, userId := some u.id,
        userName := some u.name, userAvatar := some u.avatar,
        messageType := none, file := none } e).1.userId = uid := by
    rw [saveMessage_userId _ _ _ u.id rfl (by rw [hkey]; exact hid)]
    exact hkey
  have h1 : (saveMessage st.archive
      { role := "user", content := st.currentText, userId := some u.id,
        userName := some u.name, userAvatar := some u.avatar,
        messageType := none, file := none } e).1.userId ≠ "" := by
    rw [hmid]
    exact hid
  have h2 : ∃ u2, getUserById ({ st with um := updateActivity st.um a e.now }).um
      ((saveMessage st.archive
        { role := "user", content := st.currentText, userId := some u.id,
          userName := some u.name, userAvatar := some u.avatar,
          messageType := none, file := none } e).1.userId) = some u2 ∧ u2.wsId = a := by
    refine ⟨{ u with lastActiveAt := e.now }, ?_, hws⟩
    unfold getUserById
    dsimp only
    rw [hmid, hupd, mapGet_mapSet_self]
  have h3 : readyState ({ st with um := updateActivity st.um a e.now }) a = 1 := hlive
  rw [sendChatMessage_form _ _ a h1 h2 h3]
  rfl

theorem chatDeliveryCount_append (l1 l2 : List (Nat × OutMsg)) (ws : Nat) :
    chatDeliveryCount (l1 ++ l2) ws
      = chatDeliveryCount l1 ws + chatDeliveryCount l2 ws := by
  simp [chatDeliveryCount, List.filter_append]

theorem chatDeliveryCount_cons_ncm_self (l : List (Nat × OutMsg)) (cm : StoredMessage)
    (ws : Nat) :
    chatDeliveryCount ((ws, OutMsg.newChatMessage cm) :: l) ws
      = chatDeliveryCount l ws + 1 := by
  simp [chatDeliveryCount, List.filter_cons]

theorem chatDeliveryCount_cons_ne (l : List (Nat × OutMsg)) (x : Nat × OutMsg)
    (ws : Nat) (h : x.1 ≠ ws) :
    chatDeliveryCount (x :: l) ws = chatDeliveryCount l ws := by
  simp [chatDeliveryCount, List.filter_cons, h]

theorem chatDeliveryCount_single_ack (a : Nat) (s : String) (ws : Nat) :
    chatDeliveryCount [(a, OutMsg.ack s)] ws = 0 := by
  simp [chatDeliveryCount, List.filter_cons]

theorem chatDeliveryCount_map (l : List Nat) (cm : StoredMessage) (ws : Nat) :
    chatDeliveryCount (l.map (fun c => (c, OutMsg.newChatMessage cm))) ws
      = l.count ws := by
  induction l with
  | nil => rfl
  | cons c rest ih =>
    simp only [List.map_cons]
    by_cases h : c = ws
    · subst h
      rw [chatDeliveryCount_cons_ncm_self, ih, List.count_cons_self]
    · rw [chatDeliveryCount_cons_ne _ _ _ (by simpa using h), ih,
        List.count_cons_of_ne (Ne.symm h)]

theorem mem_liveConsoles_contains (st : ServerState) (c : Nat)
    (h : c ∈ liveConsoles st) : st.serverViews.contains c = true := by
  unfold liveConsoles at h
  have := (List.mem_filter.mp h).2
  exact (Bool.and_eq_true_iff.mp this).2

/-- C5: routing fan-out of `submit`.  When an admitted client (bound in the
registry to its live socket) submits with a non-blank shared text, exactly one
ChatMessage is delivered to that client, exactly one to each live console, zero
ChatMessages to every other ordinary client in the clients set, and the shared
text buffer is cleared afterwards. -/
theorem c5_submit_fanout (st : ServerState) (a : Nat) (e : Entropy)
    (uid : String) (u : JsUser)
    (hconn : mapGet st.um.connections a = some uid)
    (huser : mapGet st.um.users uid = some u)
    (hkey : u.id = uid) (hid : uid ≠ "") (hws : u.wsId = a)
    (hlive : readyState st a = 1)
    (htext : trimTruthy st.currentText = true)
    (hnodup : st.clients.Nodup)
    (hnotview : st.serverViews.contains a = false) :
    chatDeliveryCount (handleSubmit st a e).2 a = 1
      ∧ (∀ c ∈ liveConsoles st, chatDeliveryCount (handleSubmit st a e).2 c = 1)
      ∧ (∀ b ∈ st.clients, st.serverViews.contains b = false → b ≠ a →
          chatDeliveryCount (handleSubmit st a e).2 b = 0)
      ∧ (handleSubmit st a e).1.currentText = "" := by
  obtain ⟨cm, hout, hclear⟩ :=
    handleSubmit_deliveries st a e uid u hconn huser hkey hid hws hlive htext
  have hnodupC : (liveConsoles st).Nodup := List.Nodup.filter _ hnodup
  have hanotin : a ∉ liveConsoles st := by
    intro hmem
    rw [mem_liveConsoles_contains st a hmem] at hnotview
    exact absurd hnotview (by simp)
  rw [hout, hclear]
  refine ⟨?_, ?_, ?_, rfl⟩
  · rw [chatDeliveryCount_append, chatDeliveryCount_cons_ncm_self,
      chatDeliveryCount_map, chatDeliveryCount_single_ack,
      List.count_eq_zero_of_not_mem hanotin]
  · intro c hc
    have hca : a ≠ c := by
      intro hh
      exact hanotin (hh ▸ hc)
    rw [chatDeliveryCount_append, chatDeliveryCount_cons_ne _ _ _ hca,
      chatDeliveryCount_map, chatDeliveryCount_single_ack,
      List.count_eq_one_of_mem hnodupC hc]
  · intro b hb hbview hba
    have hbnotin : b ∉ liveConsoles st := by
      intro hmem
      rw [mem_liveConsoles_contains st b hmem] at hbview
      exact absurd hbview (by simp)
    rw [chatDeliveryCount_append, chatDeliveryCount_cons_ne _ _ _ (Ne.symm hba),
      chatDeliveryCount_map, chatDeliveryCount_single_ack,
      List.count_eq_zero_of_not_mem hbnotin]

/-- C5 witness: submitting from client socket 0 delivers exactly one
ChatMessage to socket 0 and one to console socket 2, none to the other client
socket 1, and clears the shared text. -/
theorem c5_submit_fanout_witness :
    chatDeliveryCount (handleSubmit stC5 0 entW).2 0 = 1
      ∧ chatDeliveryCount (handleSubmit stC5 0 entW).2 2 = 1
      ∧ chatDeliveryCount (handleSubmit stC5 0 entW).2 1 = 0
      ∧ (handleSubmit stC5 0 entW).1.currentText = "" := by
  have h := c5_submit_fanout stC5 0 entW "device_dA" uC5 (by decide) (by decide)
    (by decide) (by decide) (by decide) (by decide) (by decide) (by decide) (by decide)
  exact ⟨h.1, h.2.1 2 (by decide), h.2.2.1 1 (by decide) (by decide) (by decide),
    h.2.2.2⟩

/-! ## Per-connection user id resolution (claim C9) -/

theorem string_append_ne_empty (a b : String) (h : a ≠ "") : a ++ b ≠ "" := by
  cases a with | mk da =>
  cases b with | mk db =>
  intro hab
  apply h
  have hd : da ++ db = [] := congrArg String.data hab
  have h0 : da = [] := (List.append_eq_nil.mp hd).1
  rw [h0]

theorem strTruthy_getD_ne (o : Option String) (h : strTruthy o = true) :
    o.getD "" ≠ "" := by
  cases o with
  | none => simp [strTruthy] at h
  | some s => simpa [strTruthy] using h

theorem resolveDeviceId_ne_empty (q : ConnQuery) (ip : Option String) (b : Bool) :
    resolveDeviceId q ip b ≠ "" := by
  unfold resolveDeviceId
  by_cases h : strTruthy q.deviceIdParam = true
  · rw [if_pos h]
    exact strTruthy_getD_ne _ h
  · rw [if_neg h]
    unfold deviceIdFallback
    apply string_append_ne_empty
    apply string_append_ne_empty
    apply string_append_ne_empty
    decide

theorem addUser_ok_id (um : UserManagerState) (ws : Nat) (tok : Option Candidate)
    (d : String) (e : Entropy) (u : JsUser) (um2 : UserManagerState) (hd : d ≠ "")
    (h : addUser um ws tok (some d) e = (.ok u, um2)) : u.id = "device_" ++ d := by
  have hcan := addUser_ok_canAccept um ws tok (some d) e u um2 h
  have hdev : strTruthy (some d) = true := (strTruthy_some_iff d).mpr hd
  unfold addUser at h
  rw [hcan, if_neg (by simp)] at h
  dsimp only at h
  have hu := congrArg Prod.fst h
  dsimp only at hu
  have hrec := AddUserResult.ok.inj hu
  rw [← hrec]
  simp only [hdev, eq_self_iff_true, if_true, Option.getD_some]

/-- C9 (amended): for every admitted client connection, the assigned user id is
`device_<fingerprint>` when the client supplied a (truthy) device fingerprint,
and otherwise `device_ip_<address>_client` derived deterministically from the
peer address and connection type — not random per connection. -/
theorem c9_user_id_resolution (st : ServerState) (q : ConnQuery) (ip : Option String)
    (e : Entropy) (ws : Nat) (u : JsUser)
    (h : (acceptConnection st q ip e).1 = ConnOutcome.client ws u) :
    u.id = "device_" ++ resolveDeviceId q ip false := by
  rcases hE : acceptConnection st q ip e with ⟨out, st2⟩
  rw [hE] at h
  dsimp only at h
  unfold acceptConnection at hE
  dsimp only at hE
  split at hE
  · have hh := (congrArg Prod.fst hE).trans h
    simp at hh
  · split at hE
    · have hh := (congrArg Prod.fst hE).trans h
      simp at hh
    · next hC =>
      have hC2 : (isLocalhostIP ip && validateServerToken st.auth q.serverToken) = false := by
        revert hC
        cases isLocalhostIP ip && validateServerToken st.auth q.serverToken <;> simp
      rw [hC2] at hE
      split at hE
      · have hh := (congrArg Prod.fst hE).trans h
        simp at hh
      · next u0 um2 heq =>
        have hh := (congrArg Prod.fst hE).trans h
        have hpair : st.nextWs = ws ∧ u0 = u := by simpa using hh
        have hu0 := hpair.2
        subst hu0
        exact addUser_ok_id _ _ _ _ _ _ _ (resolveDeviceId_ne_empty q ip false) heq

/-- C9 witness: with fingerprint "dev9" the admitted id is device_dev9; without
a fingerprint, from address 10.1.1.4, it is device_ip_10.1.1.4_client. -/
theorem c9_user_id_resolution_witness :
    outcomeUserId (acceptConnection (srvInit 7 "tok" "srv" none) qDev
        (some "10.1.1.4") entW).1 = "device_dev9"
      ∧ outcomeUserId (acceptConnection (srvInit 7 "tok" "srv" none) qND
        (some "10.1.1.4") entW).1 = "device_ip_10.1.1.4_client" := by
  constructor
  · obtain ⟨u, hu⟩ : ∃ u, (acceptConnection (srvInit 7 "tok" "srv" none) qDev
        (some "10.1.1.4") entW).1 = ConnOutcome.client 0 u := ⟨_, rfl⟩
    have hid := c9_user_id_resolution _ _ _ _ _ _ hu
    rw [hu]
    unfold outcomeUserId
    dsimp only
    rw [hid]
    decide
  · obtain ⟨u, hu⟩ : ∃ u, (acceptConnection (srvInit 7 "tok" "srv" none) qND
        (some "10.1.1.4") entW).1 = ConnOutcome.client 0 u := ⟨_, rfl⟩
    have hid := c9_user_id_resolution _ _ _ _ _ _ hu
    rw [hu]
    unfold outcomeUserId
    dsimp only
    rw [hid]
    decide

/-- C9 (counterexample): two connections with no fingerprint, at different
times and with different random draws, are assigned the same user id
device_ip_10.1.1.4_client — derived from the peer address, not random per
connection. -/
theorem c9_fallback_counterexample :
    outcomeUserId (acceptConnection (srvInit 7 "tok" "srv" none) qND
        (some "10.1.1.4") entA).1 = "device_ip_10.1.1.4_client"
      ∧ outcomeUserId (acceptConnection (srvInit 7 "tok" "srv" none) qND
        (some "10.1.1.4") entB).1 = "device_ip_10.1.1.4_client" := by
  constructor <;> decide

/-- C2 witness: the console secret "srv" is accepted by the boolean check; the
same valid console credential from a non-loopback address is not registered as
a console; and a connection with no valid credential is rejected with close
code 4001. -/
theorem c2_server_console_check_witness :
    validateServerToken (srvInit 7 "tok" "srv" none).auth (some "srv") = true
      ∧ (acceptConnection (srvInit 7 "tok" "srv" none) qConsole (some "10.0.0.9") entW).1
          ≠ ConnOutcome.console 0
      ∧ (acceptConnection (srvInit 7 "tok" "srv" none) qBad (some "10.0.0.9") entW).1
          = ConnOutcome.rejected 4001 := by
  have h1 := c2_server_console_check (srvInit 7 "tok" "srv" none) qConsole
    (some "10.0.0.9") entW
  have h2 := c2_server_console_check (srvInit 7 "tok" "srv" none) qBad
    (some "10.0.0.9") entW
  exact ⟨h1.2.1.mpr ⟨"srv", rfl, rfl⟩, h1.2.2.1 (Or.inl (by decide)) 0,
    h2.2.2.2 (by decide) (by decide) (by decide)⟩

/-- C4 (counterexample): a request to /api/qrcode from a non-loopback address
with no token at all — validateRequest rejects it — is answered 200 with the
QR payload, not with a 401/403-equivalent: the /api/qrcode route precedes the
token gate of handleRequestInternal. -/
theorem c4_qrcode_counterexample :
    validateRequest (srvInit 7 "tok" "srv" none).auth qrRequest.queryToken
        qrRequest.cookieToken 0 = false
      ∧ isLocalhostIP qrRequest.remoteAddress = false
      ∧ handleRequestInternal (srvInit 7 "tok" "srv" none) qrRequest 0
        = { status := 200, tag := "qrcode", effects := [] } := by
  refine ⟨by decide, by decide, by decide⟩

/-- C4 (amended): every HTTP request handled after the token gate — any
pathname other than the /server and client page routes, POST /api/login, and
/api/qrcode — that neither originates from loopback nor carries a token
accepted by validateRequest is rejected with status 401 and performs no
operation; /api/qrcode itself (like the page routes and /api/login) is served
without token validation. -/
theorem c4_token_gate (st : ServerState) (r : HttpRequest) (now : Int)
    (h1 : ¬ (r.pathname = "/server" ∨ r.pathname = "/server/"))
    (h2 : ¬ (r.pathname = "/" ∨ r.pathname = "/index.html"
        ∨ r.pathname = "/client" ∨ r.pathname = "/client/"))
    (h3 : ¬ (r.pathname = "/api/login" ∧ r.method = "POST"))
    (h4 : ¬ r.pathname = "/api/qrcode")
    (h5 : isLocalhostIP r.remoteAddress = false)
    (h6 : validateRequest st.auth r.queryToken r.cookieToken now = false) :
    handleRequestInternal st r now
      = { status := 401, tag := "unauthorized", effects := [] } := by
  unfold handleRequestInternal
  rw [if_neg h1, if_neg h2, if_neg h3, if_neg h4, if_pos ⟨h5, h6⟩]

/-- C4 witness: the token-gate theorem applied to a concrete unauthenticated
kick-user request — rejected 401, no operation performed. -/
theorem c4_token_gate_witness :
    handleRequestInternal (srvInit 7 "tok" "srv" none) kickRequest 0
      = { status := 401, tag := "unauthorized", effects := [] } :=
  c4_token_gate (srvInit 7 "tok" "srv" none) kickRequest 0 (by decide) (by decide)
    (by decide) (by decide) (by decide) (by decide)
